import Mathlib

/-!
# Verification of the rappi-intelligent-ops core logic

Shallow embedding of the decision logic of the repository's core modules
(`src/bot/parser.py`, `src/bot/schema.py`, `src/bot/memory.py`,
`src/bot/executor.py`, `src/insights/engine.py`) and proofs of the spec's
testable properties about them.

Python strings are modelled as `String` (with the character-list ops done
on `String.data`); Python `None`-able values as `Option`; Python floats as
`ℚ` (exact arithmetic) except where a square root forces `ℝ`
(the benchmarking detector); the DuckDB warehouse and the metric/geo
catalogs, which are external data sources, are parameters.
-/

namespace RappiOps

/-! ## Python string-operation models (shared toolkit) -/

/-- A short alias for the character-list view of strings. -/
abbrev Str := List Char

/-- ASCII lowercasing plus the uppercase accented Spanish letters appearing in
the keyword tables; models `str.lower` on the repertoire this codebase uses. -/
def lowerChar (c : Char) : Char :=
  if 65 ≤ c.toNat ∧ c.toNat ≤ 90 then Char.ofNat (c.toNat + 32)
  else if c = 'Á' then 'á' else if c = 'É' then 'é' else if c = 'Í' then 'í'
  else if c = 'Ó' then 'ó' else if c = 'Ú' then 'ú' else if c = 'Ü' then 'ü'
  else if c = 'Ñ' then 'ñ' else c

/-- ASCII uppercasing; models `str.upper` on the ASCII tokens it is applied to. -/
def upperChar (c : Char) : Char :=
  if 97 ≤ c.toNat ∧ c.toNat ≤ 122 then Char.ofNat (c.toNat - 32) else c

/-- Models `unicodedata.normalize("NFD", ·)` followed by dropping combining
marks (`parser._strip_accents`), restricted to the accented letters of the
Spanish keyword tables used by this repository. -/
def deaccentChar (c : Char) : Char :=
  if c = 'á' then 'a' else if c = 'é' then 'e' else if c = 'í' then 'i'
  else if c = 'ó' then 'o' else if c = 'ú' then 'u' else if c = 'ü' then 'u'
  else if c = 'ñ' then 'n' else c

/-- Python `\s` / `str.strip` whitespace (ASCII repertoire). -/
def isSpaceChar (c : Char) : Bool :=
  c = ' ' ∨ c = '\t' ∨ c = '\n' ∨ c = '\r' ∨ c = '\x0b' ∨ c = '\x0c'

/-- Python `\d`. -/
def isDigitChar (c : Char) : Bool := 48 ≤ c.toNat ∧ c.toNat ≤ 57

/-- Python `\w` (ASCII repertoire: letters, digits, underscore). -/
def isWordChar (c : Char) : Bool :=
  (97 ≤ c.toNat ∧ c.toNat ≤ 122) ∨ (65 ≤ c.toNat ∧ c.toNat ≤ 90) ∨
    isDigitChar c ∨ c = '_'

/-- `[a-z]`. -/
def isLowerAZ (c : Char) : Bool := 97 ≤ c.toNat ∧ c.toNat ≤ 122

/-- Core of `re.sub(r"\s+", " ", ·)`: the flag records whether the previous
character belonged to a whitespace run already replaced by one space. -/
def collapseWSAux : Bool → Str → Str
  | _, [] => []
  | prev, c :: rest =>
    if isSpaceChar c then
      if prev then collapseWSAux true rest else ' ' :: collapseWSAux true rest
    else c :: collapseWSAux false rest

/-- `re.sub(r"\s+", " ", ·)`. -/
def collapseWS (l : Str) : Str := collapseWSAux false l

/-- `str.strip()` (both ends, whitespace). -/
def stripChars (l : Str) : Str :=
  ((l.dropWhile isSpaceChar).reverse.dropWhile isSpaceChar).reverse

/-- `parser.normalize`: lowercase, strip accents, collapse whitespace, strip. -/
def normalize (q : String) : String :=
  ⟨stripChars (collapseWS (q.data.map (fun c => deaccentChar (lowerChar c))))⟩

/-- Python's substring test `needle in hay`. -/
def inStr (needle hay : String) : Bool := decide (needle.data <:+: hay.data)

/-- `str.lower()`. -/
def lowerStr (s : String) : String := ⟨s.data.map lowerChar⟩

/-- `str.upper()`. -/
def upperStr (s : String) : String := ⟨s.data.map upperChar⟩

/-- `str.strip()`. -/
def stripStr (s : String) : String := ⟨stripChars s.data⟩

/-- Value of a digit character. -/
def digitVal (c : Char) : Nat := c.toNat - 48

/-- Python `int(·)` on a string of decimal digits. -/
def parseDigits (ds : Str) : Nat := ds.foldl (fun a c => a * 10 + digitVal c) 0

/-- Decimal printing of a natural number, as Python's `str`/f-string
interpolation renders a nonnegative `int`. -/
def printNat (n : Nat) : Str :=
  if _h : n < 10 then [Nat.digitChar n]
  else printNat (n / 10) ++ [Nat.digitChar (n % 10)]
  decreasing_by exact Nat.div_lt_self (by omega) (by omega)

/-! ### Round-trip facts for decimal printing -/

theorem parseDigits_go (n : Nat) :
    ∀ a, (printNat n).foldl (fun a c => a * 10 + digitVal c) a =
      a * 10 ^ (printNat n).length + n := by
  induction n using Nat.strong_induction_on with
  | _ n ih =>
    intro a
    by_cases h : n < 10
    · rw [printNat, dif_pos h]
      simp only [List.foldl, List.length_cons, List.length_nil]
      have : digitVal (Nat.digitChar n) = n := by
        have : ∀ m, m < 10 → digitVal (Nat.digitChar m) = m := by decide
        exact this n h
      simp [this, pow_one]
    · rw [printNat, dif_neg h]
      rw [List.foldl_append, List.length_append]
      have hq : n / 10 < n := Nat.div_lt_self (by omega) (by omega)
      rw [ih (n / 10) hq a]
      have hr : digitVal (Nat.digitChar (n % 10)) = n % 10 := by
        have : ∀ m, m < 10 → digitVal (Nat.digitChar m) = m := by decide
        exact this _ (Nat.mod_lt _ (by omega))
      simp only [List.foldl, hr, List.length_cons, List.length_nil]
      rw [pow_succ]
      have := Nat.div_add_mod n 10
      ring_nf
      omega

theorem parseDigits_printNat (n : Nat) : parseDigits (printNat n) = n := by
  unfold parseDigits
  rw [parseDigits_go]
  simp

theorem printNat_all_digits (n : Nat) : ∀ c ∈ printNat n, isDigitChar c = true := by
  induction n using Nat.strong_induction_on with
  | _ n ih =>
    by_cases h : n < 10
    · rw [printNat, dif_pos h]
      intro c hc
      simp only [List.mem_singleton] at hc
      subst hc
      have : ∀ m, m < 10 → isDigitChar (Nat.digitChar m) = true := by decide
      exact this n h
    · rw [printNat, dif_neg h]
      intro c hc
      rcases List.mem_append.mp hc with h1 | h2
      · exact ih (n / 10) (Nat.div_lt_self (by omega) (by omega)) c h1
      · simp only [List.mem_singleton] at h2
        subst h2
        have : ∀ m, m < 10 → isDigitChar (Nat.digitChar m) = true := by decide
        exact this _ (Nat.mod_lt _ (by omega))

theorem printNat_ne_nil (n : Nat) : printNat n ≠ [] := by
  by_cases h : n < 10
  · rw [printNat, dif_pos h]; simp
  · rw [printNat, dif_neg h]; simp

/-! ## `executor._offset_bounds` (src/bot/executor.py lines 15-39)

`'LkW-L0W'` / `'L0W'` tokens to inclusive `WEEK_OFFSET` bounds. -/

/-- Anchored match of the regex piece `L(\d+)W` at the front of the input:
returns the numeral's value and the remaining characters.  `\d+` is greedy and
is followed by the non-digit `W`, so maximal munch is exact. -/
def matchLnW (l : Str) : Option (Nat × Str) :=
  match l with
  | [] => none
  | c :: rest =>
    if c = 'L' then
      let ds := rest.takeWhile isDigitChar
      if ds = [] then none
      else
        match rest.dropWhile isDigitChar with
        | [] => none
        | d :: tail => if d = 'W' then some (parseDigits ds, tail) else none
    else none

/-- `executor._offset_bounds` after the `strip().upper()` canonicalisation:
exact `"L0W"`, then `re.fullmatch(r"L(\d+)W-L0W", ·)`, then
`re.fullmatch(r"L(\d+)W-L(\d+)W", ·)`, else the `(0, 0)` fallback. -/
def offsetBoundsCore (r : Str) : Nat × Nat :=
  if r = ['L', '0', 'W'] then (0, 0)
  else
    match matchLnW r with
    | none => (0, 0)
    | some (n, rest1) =>
      match rest1 with
      | [] => (0, 0)
      | c :: rest =>
        if c = '-' then
          if rest = ['L', '0', 'W'] then (0, n - 1)
          else
            match matchLnW rest with
            | none => (0, 0)
            | some (m, rest2) => if rest2 = [] then (min n m, max n m) else (0, 0)
        else (0, 0)

/-- `executor._offset_bounds`: the `if not range_str` guard handles both
`None` and the empty string; then `strip().upper()` and the regex cascade. -/
def _offset_bounds (range_str : Option String) : Nat × Nat :=
  match range_str with
  | none => (0, 0)
  | some s =>
    if s.data = [] then (0, 0)
    else offsetBoundsCore ((stripChars s.data).map upperChar)

/-- The time-window grammar of spec §6: `L<digits>W` or `L<digits>W-L<digits>W`
(after canonicalisation). -/
def matchesGrammar (r : Str) : Bool :=
  match matchLnW r with
  | none => false
  | some (_, rest1) =>
    match rest1 with
    | [] => true
    | c :: rest =>
      if c = '-' then
        match matchLnW rest with
        | some (_, rest2) => rest2 = []
        | none => false
      else false

/-- The canonical `LkW-L0W` window token for `k` (as the parser produces it). -/
def tokLastWeeks (k : Nat) : String :=
  ⟨'L' :: (printNat k ++ ['W', '-', 'L', '0', 'W'])⟩

/-- A generic `LaW-LbW` window token. -/
def tokRange (a b : Nat) : String :=
  ⟨'L' :: (printNat a ++ 'W' :: '-' :: 'L' :: (printNat b ++ ['W']))⟩

/-! ### Supporting lemmas for the token grammar -/

theorem takeWhile_append_stop {p : Char → Bool} :
    ∀ {xs : Str}, (∀ c ∈ xs, p c = true) → ∀ {y : Char}, p y = false →
      ∀ ys : Str, (xs ++ y :: ys).takeWhile p = xs := by
  intro xs hxs y hy ys
  induction xs with
  | nil => simp [List.takeWhile_cons, hy]
  | cons a as ih =>
    have ha : p a = true := hxs a (List.mem_cons_self a as)
    simp only [List.cons_append, List.takeWhile_cons, ha, if_true]
    rw [ih fun c hc => hxs c (List.mem_cons_of_mem a hc)]

theorem dropWhile_append_stop {p : Char → Bool} :
    ∀ {xs : Str}, (∀ c ∈ xs, p c = true) → ∀ {y : Char}, p y = false →
      ∀ ys : Str, (xs ++ y :: ys).dropWhile p = y :: ys := by
  intro xs hxs y hy ys
  induction xs with
  | nil => simp [List.dropWhile_cons, hy]
  | cons a as ih =>
    have ha : p a = true := hxs a (List.mem_cons_self a as)
    simp only [List.cons_append, List.dropWhile_cons, ha, if_true]
    exact ih fun c hc => hxs c (List.mem_cons_of_mem a hc)

theorem matchLnW_print (k : Nat) (tail : Str) :
    matchLnW ('L' :: (printNat k ++ 'W' :: tail)) = some (k, tail) := by
  have hW : isDigitChar 'W' = false := by decide
  simp only [matchLnW, if_pos rfl,
    takeWhile_append_stop (printNat_all_digits k) hW tail,
    dropWhile_append_stop (printNat_all_digits k) hW tail]
  rw [if_neg (printNat_ne_nil k)]
  show (if ('W' : Char) = 'W' then some (parseDigits (printNat k), tail) else none) = _
  rw [if_pos rfl, parseDigits_printNat]

theorem printNat_length_pos (n : Nat) : 0 < (printNat n).length :=
  List.length_pos.mpr (printNat_ne_nil n)

theorem tokLastWeeks_ne_L0W (k : Nat) :
    ('L' :: (printNat k ++ ['W', '-', 'L', '0', 'W']) : Str) ≠ ['L', '0', 'W'] := by
  intro h
  have hlen := congrArg List.length h
  simp only [List.length_cons, List.length_append] at hlen
  omega

theorem tokRange_tail_ne_L0W {b : Nat} (hb : 1 ≤ b) :
    ('L' :: (printNat b ++ ['W']) : Str) ≠ ['L', '0', 'W'] := by
  intro h
  have h1 : (printNat b ++ ['W'] : Str) = ['0', 'W'] := by
    injection h
  have h2 : printNat b = ['0'] := by
    cases hpb : printNat b with
    | nil => exact absurd hpb (printNat_ne_nil b)
    | cons c cs =>
      rw [hpb] at h1
      simp only [List.cons_append] at h1
      injection h1 with hc h1'
      subst hc
      cases cs with
      | nil => rfl
      | cons d ds =>
        simp only [List.cons_append] at h1'
        injection h1' with hd h1''
        simp at h1''
  have h0 := parseDigits_printNat b
  rw [h2] at h0
  simp [parseDigits, digitVal] at h0
  omega

theorem tokRange_ne_L0W (a b : Nat) :
    ('L' :: (printNat a ++ 'W' :: '-' :: 'L' :: (printNat b ++ ['W'])) : Str) ≠
      ['L', '0', 'W'] := by
  intro h
  have hlen := congrArg List.length h
  simp only [List.length_cons, List.length_append] at hlen
  have := printNat_length_pos a
  have := printNat_length_pos b
  omega

theorem upperChar_of_digit {c : Char} (h : isDigitChar c = true) : upperChar c = c := by
  simp only [isDigitChar, decide_eq_true_eq] at h
  unfold upperChar
  rw [if_neg]
  omega

theorem isSpaceChar_of_digit {c : Char} (h : isDigitChar c = true) :
    isSpaceChar c = false := by
  simp only [isDigitChar, decide_eq_true_eq] at h
  by_contra hsp
  simp only [Bool.not_eq_false, isSpaceChar, decide_eq_true_eq] at hsp
  rcases hsp with rfl | rfl | rfl | rfl | rfl | rfl <;> revert h <;> decide

/-- On a list with no leading/trailing whitespace and only already-uppercase
token characters, the canonicalisation `strip().upper()` is the identity. -/
theorem canon_eq_self {l : Str} (hsp : ∀ c ∈ l, isSpaceChar c = false)
    (hup : ∀ c ∈ l, upperChar c = c) :
    (stripChars l).map upperChar = l := by
  have hdrop : l.dropWhile isSpaceChar = l := by
    cases l with
    | nil => rfl
    | cons a as => simp [List.dropWhile_cons, hsp a (List.mem_cons_self a as)]
  have hdrop2 : l.reverse.dropWhile isSpaceChar = l.reverse := by
    cases hrev : l.reverse with
    | nil => rfl
    | cons a as =>
      have : a ∈ l := by
        rw [← List.mem_reverse, hrev]; exact List.mem_cons_self a as
      simp [List.dropWhile_cons, hsp a this]
  unfold stripChars
  rw [hdrop, hdrop2, List.reverse_reverse]
  calc l.map upperChar = l.map id := List.map_congr_left hup
    _ = l := List.map_id l

theorem mem_tokLastWeeks {k : Nat} {c : Char}
    (h : c ∈ ('L' :: (printNat k ++ ['W', '-', 'L', '0', 'W']) : Str)) :
    isDigitChar c = true ∨ c = 'L' ∨ c = 'W' ∨ c = '-' ∨ c = '0' := by
  rcases List.mem_cons.mp h with rfl | h2
  · simp
  rcases List.mem_append.mp h2 with hpk | htl
  · exact Or.inl (printNat_all_digits k c hpk)
  · fin_cases htl <;> simp

theorem mem_tokRange {a b : Nat} {c : Char}
    (h : c ∈ ('L' :: (printNat a ++ 'W' :: '-' :: 'L' :: (printNat b ++ ['W'])) : Str)) :
    isDigitChar c = true ∨ c = 'L' ∨ c = 'W' ∨ c = '-' := by
  rcases List.mem_cons.mp h with rfl | h2
  · simp
  rcases List.mem_append.mp h2 with hpa | h3
  · exact Or.inl (printNat_all_digits a c hpa)
  rcases List.mem_cons.mp h3 with rfl | h4
  · simp
  rcases List.mem_cons.mp h4 with rfl | h5
  · simp
  rcases List.mem_cons.mp h5 with rfl | h6
  · simp
  rcases List.mem_append.mp h6 with hpb | h7
  · exact Or.inl (printNat_all_digits b c hpb)
  · rw [List.mem_singleton.mp h7]; simp

theorem tok_canon_lastWeeks (k : Nat) :
    (stripChars ('L' :: (printNat k ++ ['W', '-', 'L', '0', 'W']))).map upperChar =
      'L' :: (printNat k ++ ['W', '-', 'L', '0', 'W']) := by
  apply canon_eq_self
  · intro c hc
    rcases mem_tokLastWeeks hc with h | rfl | rfl | rfl | rfl
    · exact isSpaceChar_of_digit h
    all_goals decide
  · intro c hc
    rcases mem_tokLastWeeks hc with h | rfl | rfl | rfl | rfl
    · exact upperChar_of_digit h
    all_goals decide

theorem tok_canon_range (a b : Nat) :
    (stripChars ('L' :: (printNat a ++ 'W' :: '-' :: 'L' :: (printNat b ++ ['W'])))).map
        upperChar =
      'L' :: (printNat a ++ 'W' :: '-' :: 'L' :: (printNat b ++ ['W'])) := by
  apply canon_eq_self
  · intro c hc
    rcases mem_tokRange hc with h | rfl | rfl | rfl
    · exact isSpaceChar_of_digit h
    all_goals decide
  · intro c hc
    rcases mem_tokRange hc with h | rfl | rfl | rfl
    · exact upperChar_of_digit h
    all_goals decide

theorem offsetBoundsCore_of_not_grammar {r : Str} (hg : matchesGrammar r = false) :
    offsetBoundsCore r = (0, 0) := by
  by_cases hL : r = ['L', '0', 'W']
  · subst hL
    exact absurd hg (by decide)
  unfold matchesGrammar at hg
  unfold offsetBoundsCore
  rw [if_neg hL]
  cases heq : matchLnW r with
  | none => rfl
  | some p =>
    obtain ⟨n, rest1⟩ := p
    rw [heq] at hg
    cases rest1 with
    | nil => simp at hg
    | cons c rest =>
      replace hg : (if c = '-' then
          match matchLnW rest with
          | some (_, rest2) => decide (rest2 = [])
          | none => false
        else false) = false := hg
      show (if c = '-' then
          if rest = ['L', '0', 'W'] then ((0 : Nat), n - 1)
          else
            match matchLnW rest with
            | none => ((0 : Nat), (0 : Nat))
            | some (m, rest2) => if rest2 = [] then (min n m, max n m) else (0, 0)
        else (0, 0)) = (0, 0)
      by_cases hc : c = '-'
      · subst hc
        rw [if_pos rfl] at hg ⊢
        by_cases ht : rest = ['L', '0', 'W']
        · subst ht
          exact absurd hg (by decide)
        · rw [if_neg ht]
          cases heq2 : matchLnW rest with
          | none => rfl
          | some q =>
            obtain ⟨m, rest2⟩ := q
            rw [heq2] at hg
            cases rest2 with
            | nil => simp at hg
            | cons d rest3 => simp
      · rw [if_neg hc]

/-- C1 (`executor._offset_bounds`, src/bot/executor.py:15-39): `LkW-L0W` with
`k ≥ 1` resolves to the inclusive offset range `[0, k-1]`; `L0W` resolves to
`[0, 0]`; a generic `LaW-LbW` token (here with `b ≥ 1`, i.e. not of the
special `...-L0W` shape) has its endpoints reordered so low ≤ high; `None`
resolves to `[0, 0]`; and any string that does not match the window-token
grammar resolves to the safe fallback `[0, 0]`. -/
theorem offset_bounds_some (s : String) (h : s.data ≠ []) :
    _offset_bounds (some s) = offsetBoundsCore ((stripChars s.data).map upperChar) := by
  rw [_offset_bounds, if_neg h]

theorem offset_bounds_spec :
    (∀ k : Nat, 1 ≤ k → _offset_bounds (some (tokLastWeeks k)) = (0, k - 1)) ∧
    _offset_bounds (some "L0W") = (0, 0) ∧
    (∀ a b : Nat, 1 ≤ b →
      _offset_bounds (some (tokRange a b)) = (min a b, max a b)) ∧
    _offset_bounds none = (0, 0) ∧
    (∀ s : String, matchesGrammar ((stripChars s.data).map upperChar) = false →
      _offset_bounds (some s) = (0, 0)) := by
  refine ⟨?_, by decide, ?_, rfl, ?_⟩
  · intro k _hk
    rw [offset_bounds_some (tokLastWeeks k) (by simp [tokLastWeeks])]
    show offsetBoundsCore
      ((stripChars ('L' :: (printNat k ++ ['W', '-', 'L', '0', 'W']))).map upperChar) = _
    rw [tok_canon_lastWeeks]
    unfold offsetBoundsCore
    rw [if_neg (tokLastWeeks_ne_L0W k), matchLnW_print k ['-', 'L', '0', 'W']]
    rfl
  · intro a b hb
    rw [offset_bounds_some (tokRange a b) (by simp [tokRange])]
    show offsetBoundsCore
      ((stripChars ('L' :: (printNat a ++ 'W' :: '-' :: 'L' :: (printNat b ++ ['W'])))).map
        upperChar) = _
    rw [tok_canon_range]
    unfold offsetBoundsCore
    rw [if_neg (tokRange_ne_L0W a b),
      matchLnW_print a ('-' :: ('L' :: (printNat b ++ ['W'])))]
    show (if ('-' : Char) = '-' then
        if ('L' :: (printNat b ++ ['W']) : Str) = ['L', '0', 'W'] then ((0 : Nat), a - 1)
        else
          match matchLnW ('L' :: (printNat b ++ ['W'])) with
          | none => ((0 : Nat), (0 : Nat))
          | some (m, rest2) => if rest2 = [] then (min a m, max a m) else (0, 0)
      else (0, 0)) = (min a b, max a b)
    rw [if_pos rfl, if_neg (tokRange_tail_ne_L0W hb), matchLnW_print b []]
    rfl
  · intro s hg
    rw [_offset_bounds]
    split
    · rfl
    · exact offsetBoundsCore_of_not_grammar hg

/-- Witness for C1 at concrete window tokens. -/
theorem offset_bounds_spec_witness :
    _offset_bounds (some (tokLastWeeks 8)) = (0, 7) ∧
    _offset_bounds (some (tokRange 5 3)) = (3, 5) ∧
    _offset_bounds (some "hello") = (0, 0) := by
  refine ⟨?_, ?_, ?_⟩
  · simpa using offset_bounds_spec.1 8 (by decide)
  · simpa using offset_bounds_spec.2.2.1 5 3 (by decide)
  · exact offset_bounds_spec.2.2.2.2 "hello" (by decide)

/-! ## `engine._severity_from_pct` (src/insights/engine.py:47-48)

Week-over-week anomaly severity.  Python floats are modelled as exact
rationals. -/

/-- `engine._severity_from_pct`: `min(1.0, abs(p) / 0.20)`. -/
def _severity_from_pct (p : ℚ) : ℚ := min 1 (|p| / 0.20)

/-- C6 (src/insights/engine.py:47-48, used by `detect_anomalies`): anomaly
severity equals `min(1, |pct_change| / 0.20)`; it is monotone non-decreasing
in `|pct_change|`, saturates at exactly 1 for `|pct_change| ≥ 0.20`, and in
particular `pct_change = +0.05` yields severity `0.25` while
`pct_change = -0.25` yields severity `1`. -/
theorem severity_from_pct_spec :
    (∀ p q : ℚ, |p| ≤ |q| → _severity_from_pct p ≤ _severity_from_pct q) ∧
    (∀ p : ℚ, 0.20 ≤ |p| → _severity_from_pct p = 1) ∧
    _severity_from_pct 0.05 = 0.25 ∧
    _severity_from_pct (-0.25) = 1 := by
  refine ⟨?_, ?_, ?_, ?_⟩
  · intro p q h
    unfold _severity_from_pct
    exact min_le_min le_rfl ((div_le_div_right (by norm_num)).mpr h)
  · intro p h
    unfold _severity_from_pct
    rw [min_eq_left]
    rw [le_div_iff (by norm_num)]
    linarith
  · unfold _severity_from_pct
    rw [abs_of_pos (by norm_num)]
    norm_num
  · unfold _severity_from_pct
    rw [abs_of_neg (by norm_num)]
    norm_num

/-- Witness for C6 at concrete percent changes. -/
theorem severity_from_pct_spec_witness :
    _severity_from_pct 0.10 ≤ _severity_from_pct (-0.15) ∧
    _severity_from_pct 0.5 = 1 := by
  constructor
  · exact severity_from_pct_spec.1 0.10 (-0.15) (by norm_num [abs_neg, abs_of_nonneg])
  · exact severity_from_pct_spec.2.1 0.5 (by norm_num [abs_of_nonneg])

/-! ## `schema.Filters._coerce_zone_type` (src/bot/schema.py:15-55)

The pydantic before-mode validator normalising `zone_type` spellings, followed
by the `Literal["Wealthy", "Non Wealthy", "Non-Wealthy"]` check. -/

/-- Core of `re.sub(r"[-_]+", " ", ·)`: each run of `-`/`_` becomes one space. -/
def collapseSepsAux : Bool → Str → Str
  | _, [] => []
  | prev, c :: rest =>
    if c = '-' ∨ c = '_' then
      if prev then collapseSepsAux true rest else ' ' :: collapseSepsAux true rest
    else c :: collapseSepsAux false rest

/-- `re.sub(r"[-_]+", " ", ·)`. -/
def collapseSeps (l : Str) : Str := collapseSepsAux false l

/-- `schema.Filters._coerce_zone_type`: `None` passes through; otherwise
lowercase and strip, homogenise `-`/`_` runs and whitespace runs to single
spaces, and map the recognised spellings to the canonical `"Non Wealthy"` /
`"Wealthy"`; anything unrecognised is returned unchanged (and left to the
`Literal` check).  The first membership set is
`{"nonwealthy", "non-wealthy"}`, the value of the Python literal set
`{"nonwealthy", "non-weal thy".replace(" ",""), "non_wealthy".replace("_","")}`. -/
def _coerce_zone_type (v : Option String) : Option String :=
  match v with
  | none => none
  | some vs =>
    let s0 : Str := (stripChars vs.data).map lowerChar
    let s : Str := stripChars (collapseWS (collapseSeps s0))
    let sNoSpace : Str := s.filter (fun c => c != ' ')
    if sNoSpace = "nonwealthy".data ∨ sNoSpace = "non-wealthy".data ∨
        s = "non wealthy".data ∨ s = "no wealthy".data then
      some "Non Wealthy"
    else if "wealthy".data <:+: s ∧ ¬ ("non".data <+: s) then
      some "Wealthy"
    else some vs

/-- The pydantic `Literal` validation of `Filters.zone_type` after the
before-mode coercion; `none` result models a `ValidationError`. -/
def validate_zone_type (v : Option String) : Option (Option String) :=
  match _coerce_zone_type v with
  | none => some none
  | some s =>
    if s = "Wealthy" ∨ s = "Non Wealthy" ∨ s = "Non-Wealthy" then some (some s)
    else none

theorem coerce_zone_type_cases (vs : String) :
    _coerce_zone_type (some vs) = some "Non Wealthy" ∨
    _coerce_zone_type (some vs) = some "Wealthy" ∨
    _coerce_zone_type (some vs) = some vs := by
  unfold _coerce_zone_type
  dsimp only
  split
  · exact .inl rfl
  · split
    · exact .inr (.inl rfl)
    · exact .inr (.inr rfl)

theorem coerce_zone_type_nonhyphen :
    _coerce_zone_type (some "Non-Wealthy") = some "Non Wealthy" := by decide

/-- C9 (src/bot/schema.py:15-55): every `zone_type` value accepted by the
validated `Filters` model is `None`, `"Wealthy"` or `"Non Wealthy"`; the
before-mode validator folds case and separator variants (`"non-wealthy"`,
`"NONWEALTHY"`, `"non_wealthy"`, `"no wealthy"`) to the canonical spelling, so
the typed alternative `"Non-Wealthy"` never survives validation. -/
theorem zone_type_validation_spec :
    (∀ v r, validate_zone_type v = some r →
      r = none ∨ r = some "Wealthy" ∨ r = some "Non Wealthy") ∧
    validate_zone_type (some "non-wealthy") = some (some "Non Wealthy") ∧
    validate_zone_type (some "NONWEALTHY") = some (some "Non Wealthy") ∧
    validate_zone_type (some "non_wealthy") = some (some "Non Wealthy") ∧
    validate_zone_type (some "no wealthy") = some (some "Non Wealthy") ∧
    validate_zone_type (some "Non-Wealthy") = some (some "Non Wealthy") := by
  refine ⟨?_, by decide, by decide, by decide, by decide, by decide⟩
  intro v r hv
  cases v with
  | none =>
    unfold validate_zone_type _coerce_zone_type at hv
    simp only [Option.some.injEq] at hv
    exact .inl hv.symm
  | some vs =>
    rcases coerce_zone_type_cases vs with hc | hc | hc <;>
      unfold validate_zone_type at hv <;> rw [hc] at hv
    · simp at hv
      exact .inr (.inr hv.symm)
    · simp at hv
      exact .inr (.inl hv.symm)
    · replace hv : (if vs = "Wealthy" ∨ vs = "Non Wealthy" ∨ vs = "Non-Wealthy" then
          some (some vs) else none) = some r := hv
      by_cases hlit : vs = "Wealthy" ∨ vs = "Non Wealthy" ∨ vs = "Non-Wealthy"
      · rw [if_pos hlit] at hv
        simp only [Option.some.injEq] at hv
        subst hv
        rcases hlit with rfl | rfl | rfl
        · exact .inr (.inl rfl)
        · exact .inr (.inr rfl)
        · rw [coerce_zone_type_nonhyphen] at hc
          exact absurd hc (by decide)
      · rw [if_neg hlit] at hv
        exact absurd hv (by simp)

/-- Witness for C9: a concrete validated value falls in the canonical set. -/
theorem zone_type_validation_spec_witness :
    validate_zone_type (some "WEALTHY") = some (some "Wealthy") ∧
    ((some "Wealthy" : Option String) = none ∨
      (some "Wealthy" : Option String) = some "Wealthy" ∨
      (some "Wealthy" : Option String) = some "Non Wealthy") :=
  ⟨by decide, zone_type_validation_spec.1 (some "WEALTHY") (some "Wealthy") (by decide)⟩

/-! ## The `AnalyticsSpec` data model (src/bot/schema.py)

`zone_type` is carried post-validation as an optional string; `ops.high_low`
models the extra attribute attached by the parser's multivariable override. -/

structure TimeSpec where
  range : Option String := some "L8W-L0W"
  compare_to : Option String := some "none"
  deriving DecidableEq

structure Filters where
  country : Option String := none
  city : Option String := none
  zone : Option String := none
  zone_type : Option String := none
  deriving DecidableEq

structure HighLowEntry where
  metric : String
  p : ℚ
  deriving DecidableEq

structure HighLow where
  high : HighLowEntry
  low : HighLowEntry
  deriving DecidableEq

structure Ops where
  agg : Option String := none
  top_k : Option Int := none
  order : Option String := some "desc"
  explain : Bool := false
  high_low : Option HighLow := none
  deriving DecidableEq

/-- The parser's free-form `context` dict, modelled by the entries the code
writes and reads: the conversational-memory spread and the parser metadata.
At the `AnalyticsSpec` level `none` models the empty dict `{}`, which is falsy
in `Memory.update_from_spec`. -/
structure Context where
  memory_echo : List (String × Option String) := []
  explicit_country : Bool := false
  metric_label : Option String := none
  metric_value_type : Option String := none
  metric_range_hint : Option (ℚ × ℚ) := none
  metric_higher_is_better : Bool := true
  deriving DecidableEq

structure AnalyticsSpec where
  task : String
  metrics : List String
  filters : Filters := {}
  group_by : Option (List String) := none
  time : TimeSpec := {}
  ops : Ops := {}
  visualization : Option String := none
  context : Option Context := none
  deriving DecidableEq

/-! ## `Memory` (src/bot/memory.py) -/

structure MemState where
  country : Option String := none
  city : Option String := none
  zone : Option String := none
  zone_type : Option String := none
  deriving DecidableEq

/-- Python truthiness of an optional string (`None` and `""` are falsy). -/
def truthyStr : Option String → Bool
  | none => false
  | some s => s ≠ ""

/-- `Memory.update_from_spec` (src/bot/memory.py:30-79): country hygiene —
clear on `group_by` containing `country`; else persist only an explicitly
stated country when a context is present; else the conservative fallback.
City, zone and zone type are persisted whenever truthy. -/
def Memory.update_from_spec (st : MemState) (spec : AnalyticsSpec) : MemState :=
  let group_by_norm := (spec.group_by.getD []).map lowerStr
  let explicit_country :=
    match spec.context with
    | some c => c.explicit_country
    | none => false
  let incoming_country := spec.filters.country
  let country1 :=
    if "country" ∈ group_by_norm then none
    else
      match spec.context with
      | some _ =>
        if explicit_country && truthyStr incoming_country then incoming_country
        else none
      | none =>
        if truthyStr incoming_country then incoming_country else none
  { country := country1
    city := if truthyStr spec.filters.city then spec.filters.city else st.city
    zone := if truthyStr spec.filters.zone then spec.filters.zone else st.zone
    zone_type :=
      if truthyStr spec.filters.zone_type then spec.filters.zone_type
      else st.zone_type }

/-- C4 (src/bot/memory.py:44-58): whenever the incoming spec's `group_by`
contains `country` (after the code's lowercasing normalisation), the
remembered country is cleared unconditionally — for every prior memory state
and every incoming spec, including those carrying a non-null country filter
and `explicit_country` context. -/
theorem memory_country_clear_spec :
    ∀ (st : MemState) (spec : AnalyticsSpec),
      "country" ∈ (spec.group_by.getD []).map lowerStr →
      (Memory.update_from_spec st spec).country = none := by
  intro st spec h
  simp only [Memory.update_from_spec]
  rw [if_pos h]

/-- Witness for C4: a concrete grouped-by-country spec with an explicit
country filter still clears the remembered country. -/
theorem memory_country_clear_spec_witness :
    (Memory.update_from_spec
      { country := some "Mexico", city := none, zone := none, zone_type := none }
      { task := "aggregate", metrics := ["Orders"],
        filters := { country := some "Colombia" },
        group_by := some ["country"],
        context := some { explicit_country := true } }).country = none :=
  memory_country_clear_spec _ _ (by decide)

/-! ## The metric catalog (src/bot/metrics.py)

`catalog/metrics.yaml` is runtime data, so the catalog is a parameter; the
hardcoded no-YAML fallback of `load_metric_catalog` is reproduced below. -/

structure MetricProps where
  data_name : String
  label : Option String := none
  synonyms : List String := []
  value_type : Option String := none
  agg_default : Option String := none
  higher_is_better : Bool := true
  range_hint : Option (ℚ × ℚ) := none
  deriving DecidableEq

structure Catalog where
  /-- `_SYNONYM_INDEX`: normalised synonym → `data_name`, in dict order. -/
  synIndex : List (String × String) := []
  /-- `CAT["metrics"].values()` in dict order. -/
  metas : List MetricProps := []
  /-- `_LABEL_BY_DATA`: `data_name` → label. -/
  labelByData : List (String × String) := []
  deriving DecidableEq

/-- First-match association-list lookup (Python `dict.get` on the models used
here). -/
def lookupAssoc {α : Type} (l : List (String × α)) (k : String) : Option α :=
  (l.find? (fun p => p.1 = k)).map (·.2)

/-- `metrics._normalize`: lowercase, collapse whitespace, strip — unlike the
parser's `normalize`, no accent stripping. -/
def mnormalize (s : String) : String :=
  ⟨stripChars (collapseWS (s.data.map lowerChar))⟩

/-- `metrics.match_metric_from_catalog`: first synonym that is a substring of
the normalised utterance wins; its metric's full props are returned. -/
def match_metric_from_catalog (cat : Catalog) (utterance : String) :
    Option (String × MetricProps) :=
  let q := mnormalize utterance
  cat.synIndex.findSome? (fun sd =>
    if sd.1 ≠ "" ∧ inStr sd.1 q then
      (cat.metas.find? (fun m => m.data_name = sd.2)).map (fun m => (sd.2, m))
    else none)

/-- `metrics.props_for_metric` with its neutral fallback dict. -/
def props_for_metric (cat : Catalog) (data_name : String) : MetricProps :=
  (cat.metas.find? (fun m => m.data_name = data_name)).getD
    { data_name := data_name, value_type := some "ratio", agg_default := some "mean",
      higher_is_better := true, range_hint := some (0, 1) }

/-- `metrics.label_for_metric` via `_LABEL_BY_DATA`. -/
def label_for_metric (cat : Catalog) (data_name : String) : String :=
  (lookupAssoc cat.labelByData data_name).getD data_name

/-- The hardcoded fallback catalog of `metrics.load_metric_catalog` (used when
`catalog/metrics.yaml` does not exist; the YAML file is not part of this
repository snapshot). -/
def fallbackCatalog : Catalog :=
  { synIndex := [("orders", "Orders"), ("ordenes", "Orders"),
                 ("órdenes", "Orders"), ("pedidos", "Orders")],
    metas := [{ data_name := "Orders", label := some "Orders",
                synonyms := ["orders", "ordenes", "órdenes", "pedidos"],
                value_type := some "count", agg_default := some "sum",
                higher_is_better := true, range_hint := none }],
    labelByData := [("Orders", "Orders")] }

/-! ## The geo catalog (src/bot/parser.py `_load_geo_catalog`)

Indexed from the warehouse at runtime, so a parameter: normalised name →
original values, in dict order. -/

structure GeoCatalog where
  /-- zone → (zone, city?, country?). -/
  zones : List (String × String × Option String × Option String) := []
  /-- city → (city, country?). -/
  cities : List (String × String × Option String) := []
  /-- country → country. -/
  countries : List (String × String) := []
  deriving DecidableEq

/-! ## Keyword tables of src/bot/parser.py -/

def METRIC_SYNONYMS : List (String × List String) :=
  [("Lead Penetration",
    ["lead penetration", "penetracion de leads", "penetración de leads",
     "penetracion de clientes potenciales", "penetración de clientes potenciales",
     "penetracion de clientes", "penetración de clientes",
     "penetracion de usuarios", "penetración de usuarios",
     "lp", "lead pen", "% lead", "penetracion", "penetration"]),
   ("Perfect Orders",
    ["perfect orders", "ordenes perfectas", "órdenes perfectas",
     "perfect order", "pedido perfecto", "pedidos perfectos",
     "cumplimiento de pedido perfecto", "nivel de cumplimiento de pedido perfecto",
     "po", "% po"]),
   ("Gross Profit UE",
    ["gross profit ue", "gp ue", "margen por orden", "gross profit per order",
     "gross profit", "gp_ue", "gp/ue"]),
   ("Orders",
    ["orders", "ordenes", "órdenes", "pedidos",
     "num orders", "numero de ordenes", "número de órdenes",
     "cantidad de ordenes", "cantidad de órdenes", "cantidad de pedidos"])]

def METRIC_ALIASES_TO_DATA : List (String × String) :=
  [("Lead Penetration", "Lead Penetration"), ("Perfect Orders", "Perfect Orders"),
   ("Gross Profit UE", "Gross Profit UE"), ("Orders", "Orders")]

def SPANISH_NUMBER_WORDS : List (String × Nat) :=
  [("uno", 1), ("una", 1), ("dos", 2), ("tres", 3), ("cuatro", 4), ("cinco", 5),
   ("seis", 6), ("siete", 7), ("ocho", 8), ("nueve", 9), ("diez", 10),
   ("once", 11), ("doce", 12), ("veinte", 20)]

/-- `NUMBER_WORD_PATTERN`: the dictionary keys sorted by length, longest first
(stable), i.e. the regex alternation order. -/
def NUMBER_WORD_ALTS : List String :=
  ["cuatro", "veinte", "cinco", "siete", "nueve", "tres", "seis", "ocho",
   "diez", "once", "doce", "uno", "una", "dos"]

def DESC_TRIGGERS : List String :=
  ["mayor", "maximo", "mas alto", "top", "superior", "mejor", "highest", "max"]

def ASC_TRIGGERS : List String :=
  ["menor", "minimo", "mas bajo", "peor", "peores", "lowest", "min", "inferior",
   "bottom"]

def MONTHS : List String :=
  ["enero", "febrero", "marzo", "abril", "mayo", "junio", "julio", "agosto",
   "septiembre", "octubre", "noviembre", "diciembre"]

/-! ## Regex-search machinery

Each `re.search` used by the parser is modelled by a leftmost scan with an
anchored per-position matcher.  All the patterns below alternate literals that
are pairwise non-prefix (or differ only in an optional trailing `s` that the
following `\s+` could never absorb), and every greedy character-class `+` is
followed by a character outside the class, so maximal munch without
backtracking is exact. -/

/-- Leftmost `re.search` scan, no word-boundary requirement. -/
def searchNoB {α : Type} (tryAt : Str → Option α) : Str → Option α
  | [] => tryAt []
  | c :: rest =>
    match tryAt (c :: rest) with
    | some r => some r
    | none => searchNoB tryAt rest

/-- Leftmost `re.search` scan for patterns starting with `\b` followed by a
word character: positions preceded by a word character are skipped. -/
def searchWB {α : Type} (tryAt : Str → Option α) : Bool → Str → Option α
  | prevW, [] => if prevW then none else tryAt []
  | prevW, c :: rest =>
    match (if prevW then none else tryAt (c :: rest)) with
    | some r => some r
    | none => searchWB tryAt (isWordChar c) rest

/-- Anchored literal match, returning the remainder. -/
def dropPrefix? : Str → Str → Option Str
  | [], l => some l
  | _ :: _, [] => none
  | p :: ps, c :: cs => if p = c then dropPrefix? ps cs else none

/-- Anchored `\s+` (greedy). -/
def matchSpaces1 : Str → Option Str
  | [] => none
  | c :: rest => if isSpaceChar c then some (rest.dropWhile isSpaceChar) else none

/-- Anchored `(\d+)` (greedy), returning the captured value. -/
def matchDigits1 (l : Str) : Option (Nat × Str) :=
  let ds := l.takeWhile isDigitChar
  if ds = [] then none else some (parseDigits ds, l.dropWhile isDigitChar)

/-- Anchored `([a-z]+)` (greedy). -/
def matchLower1 (l : Str) : Option (Str × Str) :=
  let ws := l.takeWhile isLowerAZ
  if ws = [] then none else some (ws, l.dropWhile isLowerAZ)

/-- A trailing `\b` after a word character: end of input or a non-word
character next. -/
def atBoundary : Str → Bool
  | [] => true
  | c :: _ => !(isWordChar c)

/-- Anchored literal alternation in regex order. -/
def matchAlts (alts : List String) (l : Str) : Option (String × Str) :=
  alts.findSome? (fun w => (dropPrefix? w.data l).map (fun rest => (w, rest)))

/-- Anchored `(kw-alternation)\s+(\d+)\b`. -/
def tryKwNumAt (kws : List String) (l : Str) : Option Nat :=
  match matchAlts kws l with
  | none => none
  | some (_, r1) =>
    match matchSpaces1 r1 with
    | none => none
    | some r2 =>
      match matchDigits1 r2 with
      | none => none
      | some (n, r3) => if atBoundary r3 then some n else none

/-- `re.search(r"\b(top|bottom)\s+(\d+)\b", ·)` with the matched keyword. -/
def searchTopBottomNum (qn : String) : Option (String × Nat) :=
  searchWB (fun l =>
    match matchAlts ["top", "bottom"] l with
    | none => none
    | some (kw, r1) =>
      match matchSpaces1 r1 with
      | none => none
      | some r2 =>
        match matchDigits1 r2 with
        | none => none
        | some (n, r3) => if atBoundary r3 then some (kw, n) else none)
    false qn.data

/-- `re.search(r"\b(top|bottom)\s+([a-z]+)\b", ·)`. -/
def searchTopBottomWord (qn : String) : Option (String × String) :=
  searchWB (fun l =>
    match matchAlts ["top", "bottom"] l with
    | none => none
    | some (kw, r1) =>
      match matchSpaces1 r1 with
      | none => none
      | some r2 =>
        match matchLower1 r2 with
        | none => none
        | some (w, r3) => if atBoundary r3 then some (kw, (⟨w⟩ : String)) else none)
    false qn.data

/-- `re.search(r"\b(las|los)\s+(\d+)\s+(mejores|peores|mayores|menores)\b", ·)`,
returning the captured count and adjective. -/
def searchLasLos (qn : String) : Option (Nat × String) :=
  searchWB (fun l =>
    match matchAlts ["las", "los"] l with
    | none => none
    | some (_, r1) =>
      match matchSpaces1 r1 with
      | none => none
      | some r2 =>
        match matchDigits1 r2 with
        | none => none
        | some (n, r3) =>
          match matchSpaces1 r3 with
          | none => none
          | some r4 =>
            match matchAlts ["mejores", "peores", "mayores", "menores"] r4 with
            | none => none
            | some (adj, r5) => if atBoundary r5 then some (n, adj) else none)
    false qn.data

/-- `re.search(r"\b(\d+)\s+zonas?\b", ·)`. -/
def searchNZonas (qn : String) : Option Nat :=
  searchWB (fun l =>
    match matchDigits1 l with
    | none => none
    | some (n, r1) =>
      match matchSpaces1 r1 with
      | none => none
      | some r2 =>
        match matchAlts ["zonas", "zona"] r2 with
        | none => none
        | some (_, r3) => if atBoundary r3 then some n else none)
    false qn.data

/-- Anchored `(kw-alternation)\s+(number-word-alternation)\b`, returning the
word's dictionary value. -/
def tryKwNumWordAt (kws : List String) (l : Str) : Option Nat :=
  match matchAlts kws l with
  | none => none
  | some (_, r1) =>
    match matchSpaces1 r1 with
    | none => none
    | some r2 =>
      match matchAlts NUMBER_WORD_ALTS r2 with
      | none => none
      | some (w, r3) =>
        if atBoundary r3 then (lookupAssoc SPANISH_NUMBER_WORDS w).getD 0 |> some
        else none

/-- Optional `s?` whose continuation is `\s+` (which can never absorb the
`s`), so greedy consumption is exact. -/
def optS (l : Str) : Str :=
  match l with
  | c :: r => if c = 's' then r else l
  | [] => l

/-- Anchored `(ultim[oa]s?|últim[oa]s?)\s+⟨num⟩\s+semanas?` where `⟨num⟩` is
either `(\d+)` or the spelled-number alternation (chosen by `useDigits`). -/
def tryUltimAt (useDigits : Bool) (l : Str) : Option Nat :=
  match matchAlts ["ultim", "últim"] l with
  | none => none
  | some (_, r1) =>
    match r1 with
    | [] => none
    | c :: r2 =>
      if c = 'o' ∨ c = 'a' then
        match matchSpaces1 (optS r2) with
        | none => none
        | some r4 =>
          let num : Option (Nat × Str) :=
            if useDigits then matchDigits1 r4
            else
              match matchAlts NUMBER_WORD_ALTS r4 with
              | none => none
              | some (w, r5) => some ((lookupAssoc SPANISH_NUMBER_WORDS w).getD 0, r5)
          match num with
          | none => none
          | some (n, r5) =>
            match matchSpaces1 r5 with
            | none => none
            | some r6 =>
              match dropPrefix? "semana".data r6 with
              | none => none
              | some _ => some n
      else none

/-! ## src/bot/parser.py extraction helpers -/

/-- Python truthiness of an optional integer (`None` and `0` are falsy). -/
def falsyOptNat : Option Nat → Bool
  | none => true
  | some n => n = 0

/-- Python truthiness of an optional `int` field. -/
def truthyOptInt : Option Int → Bool
  | none => false
  | some n => n ≠ 0

/-- Python `a or b` on optional strings. -/
def pyOrStr (a b : Option String) : Option String := if truthyStr a then a else b

/-- `parser.match_metric` (the legacy hardcoded synonym table): canonical
names first, then the synonym lists, first substring hit wins. -/
def match_metric (q : String) : Option String :=
  let qn := normalize q
  match METRIC_SYNONYMS.findSome?
      (fun cs => if inStr (lowerStr cs.1) qn then some cs.1 else none) with
  | some c => some c
  | none =>
    METRIC_SYNONYMS.findSome?
      (fun cs => if cs.2.any (fun s => inStr s qn) then some cs.1 else none)

/-- `parser.normalize_canonical_metric_for_data`. -/
def normalize_canonical_metric_for_data (canonical : String) : String :=
  (lookupAssoc METRIC_ALIASES_TO_DATA canonical).getD canonical

/-- The hardcoded country table of `parser.extract_country`. -/
def COUNTRIES_BY_NAME : List (String × String) :=
  [("colombia", "Colombia"), ("mexico", "Mexico"), ("peru", "Peru"),
   ("chile", "Chile"), ("argentina", "Argentina"), ("brasil", "Brasil"),
   ("uruguay", "Uruguay"), ("ecuador", "Ecuador")]

/-- `parser.extract_country`: warehouse country index first, hardcoded names
as fallback. -/
def extract_country (geo : GeoCatalog) (q : String) : Option String :=
  let qn := normalize q
  match geo.countries.findSome?
      (fun p => if p.1 ≠ "" ∧ inStr p.1 qn then some p.2 else none) with
  | some c => some c
  | none => COUNTRIES_BY_NAME.findSome? (fun p => if inStr p.1 qn then some p.2 else none)

/-- `parser.extract_location`: zone match (implying its city and country)
first, then city match, else nothing. -/
def extract_location (geo : GeoCatalog) (q : String) :
    Option String × Option String × Option String :=
  let qn := normalize q
  match geo.zones.findSome?
      (fun p => if p.1 ≠ "" ∧ inStr p.1 qn then some p.2 else none) with
  | some (zone, city, country) => (country, city, some zone)
  | none =>
    match geo.cities.findSome?
        (fun p => if p.1 ≠ "" ∧ inStr p.1 qn then some p.2 else none) with
    | some (city, country) => (country, some city, none)
    | none => (none, none, none)

/-- `parser.extract_zone_type` (src/bot/parser.py:203-213). -/
def extract_zone_type (q : String) : Option String :=
  let qn := normalize q
  let has_wealthy := ["wealthy", "rica", "altas rentas"].any (fun w => inStr w qn)
  let has_non_wealthy :=
    ["non wealthy", "non-wealthy", "no rica", "popular"].any (fun w => inStr w qn)
  if has_wealthy && has_non_wealthy then none
  else if has_wealthy then some "Wealthy"
  else if has_non_wealthy then some "Non Wealthy"
  else none

/-- `parser.mentions_zone_segments`. -/
def mentions_zone_segments (q : String) : Bool :=
  let qn := normalize q
  ["wealthy", "non wealthy", "non-wealthy", "rica", "no rica", "popular"].any
    (fun w => inStr w qn)

/-- `parser.extract_topk`: the three ranking regexes in order.  The
alternation `top|bottom|mejores?|peores?` is expanded with the greedy optional
`s` first (`mejores` before `mejore`, `peores` before `peore`); the dropped
`s` would have to be matched by the following `\s+`, which cannot, so no other
backtracking arises. -/
def extract_topk (q : String) : Option Nat :=
  let nq := normalize q
  match searchWB (tryKwNumAt ["top", "bottom", "mejores", "mejore", "peores", "peore"])
      false nq.data with
  | some n => some n
  | none =>
    match searchNZonas nq with
    | some n => some n
    | none =>
      searchWB (tryKwNumWordAt ["top", "bottom", "mejores", "mejore", "peores", "peore"])
        false nq.data

/-- `parser.ask_is_this_week`. -/
def ask_is_this_week (q : String) : Bool :=
  let qn := normalize q
  ["esta semana", "semana actual"].any (fun w => inStr w qn)

/-- `parser.ask_last_n_weeks`: digits first, spelled numbers second. -/
def ask_last_n_weeks (q : String) : Option Nat :=
  let qn := normalize q
  match searchNoB (tryUltimAt true) qn.data with
  | some n => some n
  | none => searchNoB (tryUltimAt false) qn.data

/-- `parser._is_month_ctx`: `" mayo "` framed in spaces plus any month name. -/
def _is_month_ctx (q : String) : Bool :=
  let t := normalize q
  inStr " mayo " ⟨' ' :: (t.data ++ [' '])⟩ && MONTHS.any (fun m => inStr m t)

/-- Tail of `parser.decide_order_and_n` after the two top/bottom regexes: the
las/los regex, the trigger-word scan with the month tie-break, and the
worst/bottom tie-break. -/
def decide_order_tail (q : String) (qn : String) : String × Option Nat :=
  match searchLasLos qn with
  | some (n, adj) =>
    ((if inStr "mejor" adj || inStr "mayor" adj then "desc" else "asc"), some n)
  | none =>
    let desc0 := DESC_TRIGGERS.any (fun w => inStr w qn)
    let asc := ASC_TRIGGERS.any (fun w => inStr w qn)
    let desc :=
      if !(_is_month_ctx q) && inStr " mayo " ⟨' ' :: (qn.data ++ [' '])⟩ then true
      else desc0
    if asc && desc then
      if ["peor", "peores", "menor", "menores", "mas bajo", "bottom"].any
          (fun w => inStr w qn) then ("asc", none)
      else ("desc", none)
    else if desc then ("desc", none)
    else if asc then ("asc", none)
    else ("desc", none)

/-- `parser.decide_order_and_n` (src/bot/parser.py:83-107). -/
def decide_order_and_n (q : String) : String × Option Nat :=
  let qn := normalize q
  match searchTopBottomNum qn with
  | some (kw, n) => ((if kw = "top" then "desc" else "asc"), some n)
  | none =>
    match searchTopBottomWord qn with
    | some (kw, w) =>
      match lookupAssoc SPANISH_NUMBER_WORDS w with
      | some n => ((if kw = "top" then "desc" else "asc"), some n)
      | none => decide_order_tail q qn
    | none => decide_order_tail q qn

/-- `parser.detect_task` (src/bot/parser.py:246-262): the fixed-priority
keyword decision tree. -/
def detect_task (q : String) : String :=
  let qn := normalize q
  if ["compara", "comparar", "diferencia entre"].any (fun w => inStr w qn) then
    "compare"
  else if ["evolucion", "tendencia", "trend"].any (fun w => inStr w qn) then "trend"
  else if ["promedio", "media", "suma", "total"].any (fun w => inStr w qn) then
    "aggregate"
  else if inStr "alto" qn && inStr "bajo" qn then "multivariable"
  else if ["crecen", "crecimiento", "aumentan", "suben"].any (fun w => inStr w qn) then
    "inference"
  else if inStr "zonas problem" qn || inStr "problematic" qn then "contextual"
  else if ["top", "bottom", "mayor", "menor", "mejores", "peores"].any
      (fun w => inStr w qn) then "filter"
  else "filter"

/-! ## `parser.to_spec` (src/bot/parser.py:267-374) -/

/-- Step 1 of `to_spec`: catalog metric resolution with the legacy fallback
and the `Orders` default. -/
def resolved_metric (cat : Catalog) (q : String) : String × MetricProps :=
  match match_metric_from_catalog cat q with
  | some dm => dm
  | none =>
    let canonical := (match_metric q).getD "Orders"
    let d := normalize_canonical_metric_for_data canonical
    (d, props_for_metric cat d)

/-- Steps 2-7 of `to_spec`: intent, location (with memory fallbacks), zone
type, top-k/order, time window, grouping and visualisation defaults, the base
spec with its metric-metadata context, and the catalog `agg` default (step 7
merged into the `agg` expression). -/
def to_spec_base (cat : Catalog) (geo : GeoCatalog) (question : String)
    (memory : MemState) : AnalyticsSpec :=
  let dm := resolved_metric cat question
  let data_metric := dm.1
  let mprops := dm.2
  let task := detect_task question
  let detected_country := extract_country geo question
  let loc := extract_location geo question
  let country := pyOrStr loc.1 detected_country
  let city := pyOrStr loc.2.1 memory.city
  let zone := pyOrStr loc.2.2 memory.zone
  let zone_type := pyOrStr (extract_zone_type question) memory.zone_type
  let segment_mentioned := mentions_zone_segments question
  let topk0 := extract_topk question
  let ordn := decide_order_and_n question
  let topk :=
    match topk0 with
    | some t => some t
    | none =>
      match ordn.2 with
      | some n => if n ≠ 0 then some n else none
      | none => none
  let time_range0 := if ask_is_this_week question then "L0W" else "L8W-L0W"
  let time_range :=
    match ask_last_n_weeks question with
    | some n => if 1 ≤ n ∧ n ≤ 12 then s!"L{n}W-L0W" else time_range0
    | none => time_range0
  let group_by :=
    if task = "aggregate" then ["country"]
    else if task = "compare" then (if segment_mentioned then ["zone_type"] else ["zone"])
    else if task = "trend" then ["week"]
    else if task = "multivariable" ∨ task = "inference" ∨ task = "contextual" then
      ["zone"]
    else ["zone"]
  let visualization :=
    if task = "compare" ∨ task = "aggregate" then "bar"
    else if task = "trend" then "line"
    else "table"
  let qn := normalize question
  { task := task
    metrics := [data_metric]
    -- pydantic runs the before-mode zone_type coercion at `Filters(...)`
    -- construction (the subsequent `Literal` check rejects what it leaves
    -- unrecognised; resolved zone types are already canonical).
    filters := { country := country, city := city, zone := zone,
                 zone_type := _coerce_zone_type zone_type }
    group_by := some group_by
    time := { range := some time_range,
              compare_to := some (if inStr "semana pasada" qn then "prev_week" else "none") }
    ops := { agg := if inStr "promedio" qn then some "mean"
                    else some (mprops.agg_default.getD "mean"),
             top_k := topk.map (fun n => (n : Int)),
             order := some ordn.1 }
    visualization := some visualization
    context := some
      { memory_echo := [("country", memory.country), ("city", memory.city),
                        ("zone", memory.zone), ("zone_type", memory.zone_type)],
        explicit_country := truthyStr country,
        metric_label := some (label_for_metric cat data_metric),
        metric_value_type := mprops.value_type,
        metric_range_hint := mprops.range_hint,
        metric_higher_is_better := mprops.higher_is_better } }

/-- The order-word half of the growth override trigger
(src/bot/parser.py:364). -/
def growth_order_words (qn : String) : Bool :=
  inStr "orden" qn || inStr "orders" qn || inStr "pedidos" qn

/-- The growth-keyword half of the trigger (src/bot/parser.py:365). -/
def growth_words (qn : String) : Bool :=
  ["crec", "crecim", "aument", "sub"].any (fun w => inStr w qn)

/-- The high/low quantile parameters attached by the multivariable override
(src/bot/parser.py:356-362 and 405-411). -/
def multivariable_high_low : HighLow :=
  { high := { metric := "Lead Penetration", p := 0.70 },
    low := { metric := "Perfect Orders", p := 0.30 } }

/-- The business overrides of `to_spec` (src/bot/parser.py:349-368): the
multivariable metric forcing with its high/low quantile parameters, then the
inference/growth override forcing `Orders` (and, absent an explicit
last-N-weeks phrase, a 5-week window). -/
def apply_overrides (question : String) (spec : AnalyticsSpec) : AnalyticsSpec :=
  let qn := normalize question
  let spec1 :=
    if spec.task = "multivariable" then
      { spec with
        metrics := ["Lead Penetration", "Perfect Orders"],
        ops := { spec.ops with high_low := some multivariable_high_low } }
    else spec
  if (spec1.task = "inference" ∨ growth_order_words qn = true) ∧ growth_words qn = true then
    { spec1 with
      metrics := ["Orders"],
      time :=
        if falsyOptNat (ask_last_n_weeks question) then
          { spec1.time with range := some "L5W-L0W" }
        else spec1.time }
  else spec1

/-- Python truthiness of an optional list. -/
def truthyListOpt : Option (List String) → Bool
  | none => false
  | some l => l ≠ []

/-- The final country hygiene of `to_spec` / `to_spec_llm`
(src/bot/parser.py:370-372 and 435-436). -/
def clear_country_if_grouped (spec : AnalyticsSpec) : AnalyticsSpec :=
  if truthyListOpt spec.group_by && decide ("country" ∈ spec.group_by.getD []) then
    { spec with filters := { spec.filters with country := none } }
  else spec

/-- `parser.to_spec`: base spec, business overrides, country hygiene. -/
def to_spec (cat : Catalog) (geo : GeoCatalog) (question : String)
    (memory : MemState) : AnalyticsSpec :=
  clear_country_if_grouped (apply_overrides question (to_spec_base cat geo question memory))

/-! ## `parser.to_spec_llm` (src/bot/parser.py:379-440)

The OpenAI call is external: its validated output (or `none` for a missing
API key / any failure) is a parameter.  A successful parse goes through the
same business overrides and country hygiene as the rule engine, plus the
field repairs of lines 419-431, modelled as one small step each. -/

/-- The business overrides of the LLM path (src/bot/parser.py:403-417); the
order-word half of the growth trigger here lacks `"pedidos"`. -/
def apply_overrides_llm (question : String) (spec : AnalyticsSpec) : AnalyticsSpec :=
  let qn := normalize question
  let spec1 :=
    if spec.task = "multivariable" then
      { spec with
        metrics := ["Lead Penetration", "Perfect Orders"],
        ops := { spec.ops with high_low := some multivariable_high_low } }
    else spec
  if (spec1.task = "inference" ∨ (inStr "orden" qn || inStr "orders" qn) = true) ∧
      growth_words qn = true then
    { spec1 with
      metrics := ["Orders"],
      time :=
        if falsyOptNat (ask_last_n_weeks question) then
          { spec1.time with range := some "L5W-L0W" }
        else spec1.time }
  else spec1

/-- src/bot/parser.py:419-420: fall back to the rule engine's order. -/
def fix_order (fallback spec : AnalyticsSpec) : AnalyticsSpec :=
  if !(truthyStr spec.ops.order) then
    { spec with ops := { spec.ops with order := fallback.ops.order } }
  else spec

/-- src/bot/parser.py:421-422: fall back to the rule engine's top-k. -/
def fix_top_k (fallback spec : AnalyticsSpec) : AnalyticsSpec :=
  if !(truthyOptInt spec.ops.top_k) then
    { spec with ops := { spec.ops with top_k := fallback.ops.top_k } }
  else spec

/-- src/bot/parser.py:423-424: a trend spec is grouped by week. -/
def fix_trend_group (spec : AnalyticsSpec) : AnalyticsSpec :=
  if spec.task = "trend" ∧ ¬ ("week" ∈ spec.group_by.getD []) then
    { spec with group_by := some ["week"] }
  else spec

/-- src/bot/parser.py:425-426: normalise the `"Non-Wealthy"` spelling. -/
def fix_zone_type_spelling (spec : AnalyticsSpec) : AnalyticsSpec :=
  if spec.filters.zone_type = some "Non-Wealthy" then
    { spec with filters := { spec.filters with zone_type := some "Non Wealthy" } }
  else spec

/-- src/bot/parser.py:428-431: apply the catalog's `agg` default if absent. -/
def fix_agg (cat : Catalog) (spec : AnalyticsSpec) : AnalyticsSpec :=
  let mprops := props_for_metric cat (spec.metrics.headD "Orders")
  if !(truthyStr spec.ops.agg) then
    { spec with ops := { spec.ops with agg := some (mprops.agg_default.getD "mean") } }
  else spec

/-- src/bot/parser.py:434: rebuild the context from the memory spread and the
explicit-country flag. -/
def set_llm_context (memory : MemState) (spec : AnalyticsSpec) : AnalyticsSpec :=
  let ctx : Context :=
    { memory_echo := [("country", memory.country), ("city", memory.city),
                      ("zone", memory.zone), ("zone_type", memory.zone_type)],
      explicit_country := truthyStr spec.filters.country }
  { spec with context := some ctx }

/-- Post-processing of a successfully parsed LLM spec
(src/bot/parser.py:399-438). -/
def to_spec_llm_post (cat : Catalog) (geo : GeoCatalog) (question : String)
    (memory : MemState) (llm : AnalyticsSpec) : AnalyticsSpec :=
  let fallback := to_spec cat geo question memory
  clear_country_if_grouped
    (set_llm_context memory
      (fix_agg cat
        (fix_zone_type_spelling
          (fix_trend_group
            (fix_top_k fallback
              (fix_order fallback
                (apply_overrides_llm question llm)))))))

/-- `parser.to_spec_llm`: `none` (no API key, or any exception) falls back to
the rule engine, a successful LLM parse is post-processed. -/
def to_spec_llm (cat : Catalog) (geo : GeoCatalog) (llm : Option AnalyticsSpec)
    (question : String) (memory : MemState) : AnalyticsSpec :=
  match llm with
  | none => to_spec cat geo question memory
  | some s => to_spec_llm_post cat geo question memory s

/-- The executor's metric-inclusion selection (src/bot/executor.py:117-121):
a multivariable spec always queries exactly Lead Penetration and Perfect
Orders, whatever `spec.metrics` carries. -/
def metrics_for_where (spec : AnalyticsSpec) : List String :=
  if spec.task = "multivariable" then ["Lead Penetration", "Perfect Orders"]
  else spec.metrics

/-! ### Structural facts about the parser pipeline -/

theorem clear_country_task (s : AnalyticsSpec) :
    (clear_country_if_grouped s).task = s.task := by
  unfold clear_country_if_grouped; split <;> rfl

theorem clear_country_metrics (s : AnalyticsSpec) :
    (clear_country_if_grouped s).metrics = s.metrics := by
  unfold clear_country_if_grouped; split <;> rfl

theorem clear_country_post (s : AnalyticsSpec) :
    "country" ∈ ((clear_country_if_grouped s).group_by.getD []) →
    (clear_country_if_grouped s).filters.country = none := by
  unfold clear_country_if_grouped
  split
  · intro _; rfl
  · next hcond =>
    intro hmem
    exfalso
    apply hcond
    have h1 : truthyListOpt s.group_by = true := by
      cases hgb : s.group_by with
      | none => rw [hgb] at hmem; simp at hmem
      | some l =>
        rw [hgb] at hmem
        unfold truthyListOpt
        simp only [ne_eq, decide_eq_true_eq]
        intro hl
        subst hl
        simp at hmem
    simp [h1, hmem]

theorem apply_overrides_task (q : String) (s : AnalyticsSpec) :
    (apply_overrides q s).task = s.task := by
  unfold apply_overrides
  dsimp only
  split_ifs <;> rfl

theorem apply_overrides_llm_task (q : String) (s : AnalyticsSpec) :
    (apply_overrides_llm q s).task = s.task := by
  unfold apply_overrides_llm
  dsimp only
  split_ifs <;> rfl

theorem fix_order_task (f s : AnalyticsSpec) : (fix_order f s).task = s.task := by
  unfold fix_order; split <;> rfl

theorem fix_order_metrics (f s : AnalyticsSpec) :
    (fix_order f s).metrics = s.metrics := by
  unfold fix_order; split <;> rfl

theorem fix_top_k_task (f s : AnalyticsSpec) : (fix_top_k f s).task = s.task := by
  unfold fix_top_k; split <;> rfl

theorem fix_top_k_metrics (f s : AnalyticsSpec) :
    (fix_top_k f s).metrics = s.metrics := by
  unfold fix_top_k; split <;> rfl

theorem fix_trend_group_task (s : AnalyticsSpec) :
    (fix_trend_group s).task = s.task := by
  unfold fix_trend_group; split <;> rfl

theorem fix_trend_group_metrics (s : AnalyticsSpec) :
    (fix_trend_group s).metrics = s.metrics := by
  unfold fix_trend_group; split <;> rfl

theorem fix_zone_type_spelling_task (s : AnalyticsSpec) :
    (fix_zone_type_spelling s).task = s.task := by
  unfold fix_zone_type_spelling; split <;> rfl

theorem fix_zone_type_spelling_metrics (s : AnalyticsSpec) :
    (fix_zone_type_spelling s).metrics = s.metrics := by
  unfold fix_zone_type_spelling; split <;> rfl

theorem fix_agg_task (cat : Catalog) (s : AnalyticsSpec) :
    (fix_agg cat s).task = s.task := by
  unfold fix_agg; dsimp only; split <;> rfl

theorem fix_agg_metrics (cat : Catalog) (s : AnalyticsSpec) :
    (fix_agg cat s).metrics = s.metrics := by
  unfold fix_agg; dsimp only; split <;> rfl

theorem set_llm_context_task (mem : MemState) (s : AnalyticsSpec) :
    (set_llm_context mem s).task = s.task := rfl

theorem set_llm_context_metrics (mem : MemState) (s : AnalyticsSpec) :
    (set_llm_context mem s).metrics = s.metrics := rfl

theorem apply_overrides_metrics_multivariable (q : String) (s : AnalyticsSpec)
    (h : s.task = "multivariable") :
    (apply_overrides q s).metrics =
      if growth_order_words (normalize q) = true ∧ growth_words (normalize q) = true
      then ["Orders"] else ["Lead Penetration", "Perfect Orders"] := by
  unfold apply_overrides
  dsimp only
  rw [if_pos h]
  by_cases hg : growth_order_words (normalize q) = true ∧ growth_words (normalize q) = true
  · rw [if_pos ⟨Or.inr hg.1, hg.2⟩, if_pos hg]
  · rw [if_neg ?_, if_neg hg]
    intro hcon
    rcases hcon with ⟨h1 | h2, h3⟩
    · replace h1 : s.task = "inference" := h1
      rw [h] at h1
      exact absurd h1 (by decide)
    · exact hg ⟨h2, h3⟩

theorem apply_overrides_llm_metrics_multivariable (q : String) (s : AnalyticsSpec)
    (h : s.task = "multivariable") :
    (apply_overrides_llm q s).metrics =
      if (inStr "orden" (normalize q) || inStr "orders" (normalize q)) = true ∧
          growth_words (normalize q) = true
      then ["Orders"] else ["Lead Penetration", "Perfect Orders"] := by
  unfold apply_overrides_llm
  dsimp only
  rw [if_pos h]
  by_cases hg : (inStr "orden" (normalize q) || inStr "orders" (normalize q)) = true ∧
      growth_words (normalize q) = true
  · rw [if_pos ⟨Or.inr hg.1, hg.2⟩, if_pos hg]
  · rw [if_neg ?_, if_neg hg]
    intro hcon
    rcases hcon with ⟨h1 | h2, h3⟩
    · replace h1 : s.task = "inference" := h1
      rw [h] at h1
      exact absurd h1 (by decide)
    · exact hg ⟨h2, h3⟩

/-! ### C2 — multivariable metric forcing -/

/-- C2 counterexample: the question `"alto crec bajo pedidos"` classifies as
`multivariable` ("alto" and "bajo" co-occur), but because it also contains an
order word ("pedidos") and a growth keyword ("crec"), the later growth
override (src/bot/parser.py:364-368) rewrites the metric list to `["Orders"]`
— the claim's unconditional `["Lead Penetration", "Perfect Orders"]` fails. -/
theorem multivariable_metrics_counterexample :
    (to_spec fallbackCatalog {} "alto crec bajo pedidos" {}).task = "multivariable" ∧
    ¬ ((to_spec fallbackCatalog {} "alto crec bajo pedidos" {}).metrics =
        ["Lead Penetration", "Perfect Orders"]) := by
  constructor
  · decide
  · decide

/-- C2 (amended; src/bot/parser.py:354-368, 403-417 and
src/bot/executor.py:117-121): a multivariable spec's metric list is forced to
exactly `["Lead Penetration", "Perfect Orders"]` on both parse paths *unless*
the question also triggers the growth override (an order word together with a
growth keyword), in which case the later override rewrites it to `["Orders"]`;
the executor's metric-inclusion predicate for a multivariable spec always uses
exactly the two metrics regardless of `spec.metrics`. -/
theorem multivariable_metrics_spec :
    (∀ (cat : Catalog) (geo : GeoCatalog) (q : String) (mem : MemState),
      (to_spec cat geo q mem).task = "multivariable" →
      (to_spec cat geo q mem).metrics =
        if growth_order_words (normalize q) = true ∧ growth_words (normalize q) = true
        then ["Orders"] else ["Lead Penetration", "Perfect Orders"]) ∧
    (∀ (cat : Catalog) (geo : GeoCatalog) (q : String) (mem : MemState)
        (llm : AnalyticsSpec),
      (to_spec_llm_post cat geo q mem llm).task = "multivariable" →
      (to_spec_llm_post cat geo q mem llm).metrics =
        if (inStr "orden" (normalize q) || inStr "orders" (normalize q)) = true ∧
            growth_words (normalize q) = true
        then ["Orders"] else ["Lead Penetration", "Perfect Orders"]) ∧
    (∀ spec : AnalyticsSpec, spec.task = "multivariable" →
      metrics_for_where spec = ["Lead Penetration", "Perfect Orders"]) := by
  refine ⟨?_, ?_, ?_⟩
  · intro cat geo q mem htask
    unfold to_spec at htask ⊢
    rw [clear_country_metrics]
    rw [clear_country_task, apply_overrides_task] at htask
    exact apply_overrides_metrics_multivariable q _ htask
  · intro cat geo q mem llm htask
    unfold to_spec_llm_post at htask ⊢
    rw [clear_country_metrics, set_llm_context_metrics, fix_agg_metrics,
      fix_zone_type_spelling_metrics, fix_trend_group_metrics, fix_top_k_metrics,
      fix_order_metrics]
    rw [clear_country_task, set_llm_context_task, fix_agg_task,
      fix_zone_type_spelling_task, fix_trend_group_task, fix_top_k_task,
      fix_order_task, apply_overrides_llm_task] at htask
    exact apply_overrides_llm_metrics_multivariable q llm htask
  · intro spec h
    unfold metrics_for_where
    rw [if_pos h]

/-- Witness for C2 (amended): a multivariable question without growth/order
words keeps the forced metric pair. -/
theorem multivariable_metrics_spec_witness :
    (to_spec fallbackCatalog {} "zonas con alto lp y bajo po" {}).metrics =
      ["Lead Penetration", "Perfect Orders"] := by
  have h := multivariable_metrics_spec.1 fallbackCatalog {} "zonas con alto lp y bajo po"
    {} (by decide)
  rw [if_neg (by decide)] at h
  exact h

/-! ### C3 — grouping by country clears the country filter -/

/-- C3 (src/bot/parser.py:370-372 and 435-436): every spec returned by the
rule-based parser or by the LLM path has `filters.country = None` whenever its
`group_by` contains `country`, even when a country was resolved or stated. -/
theorem group_by_country_clears_spec :
    (∀ (cat : Catalog) (geo : GeoCatalog) (q : String) (mem : MemState),
      "country" ∈ ((to_spec cat geo q mem).group_by.getD []) →
      (to_spec cat geo q mem).filters.country = none) ∧
    (∀ (cat : Catalog) (geo : GeoCatalog) (llm : Option AnalyticsSpec) (q : String)
        (mem : MemState),
      "country" ∈ ((to_spec_llm cat geo llm q mem).group_by.getD []) →
      (to_spec_llm cat geo llm q mem).filters.country = none) := by
  constructor
  · intro cat geo q mem h
    unfold to_spec at h ⊢
    exact clear_country_post _ h
  · intro cat geo llm q mem h
    cases llm with
    | none =>
      unfold to_spec_llm to_spec at h ⊢
      exact clear_country_post _ h
    | some s =>
      unfold to_spec_llm to_spec_llm_post at h ⊢
      exact clear_country_post _ h

/-- Witness for C3: an aggregate question naming a country still ends with no
country filter (the spec groups by country). -/
theorem group_by_country_clears_spec_witness :
    (to_spec fallbackCatalog {} "promedio de pedidos en colombia" {}).filters.country =
      none :=
  group_by_country_clears_spec.1 fallbackCatalog {} "promedio de pedidos en colombia" {}
    (by decide)

/-! ### C5 — zone-type (segment) resolution -/

/-- Some wealthy-polarity keyword of src/bot/parser.py:205 occurs in the
normalised question. -/
def wealthy_mentioned (q : String) : Prop :=
  ∃ w ∈ (["wealthy", "rica", "altas rentas"] : List String),
    w.data <:+: (normalize q).data

/-- Some non-wealthy-polarity keyword of src/bot/parser.py:206 occurs in the
normalised question. -/
def non_wealthy_mentioned (q : String) : Prop :=
  ∃ w ∈ (["non wealthy", "non-wealthy", "no rica", "popular"] : List String),
    w.data <:+: (normalize q).data

instance (q : String) : Decidable (wealthy_mentioned q) := by
  unfold wealthy_mentioned; exact List.decidableBEx _ _

instance (q : String) : Decidable (non_wealthy_mentioned q) := by
  unfold non_wealthy_mentioned; exact List.decidableBEx _ _

theorem wealthy_any_iff (q : String) :
    (["wealthy", "rica", "altas rentas"].any (fun w => inStr w (normalize q)) = true) ↔
      wealthy_mentioned q := by
  simp [wealthy_mentioned, inStr, List.any_eq_true]

theorem non_wealthy_any_iff (q : String) :
    (["non wealthy", "non-wealthy", "no rica", "popular"].any
        (fun w => inStr w (normalize q)) = true) ↔
      non_wealthy_mentioned q := by
  simp [non_wealthy_mentioned, inStr, List.any_eq_true]

/-- C5 (src/bot/parser.py:203-213): zone-type resolution returns `"Wealthy"`
exactly when only wealthy-polarity keywords occur, `"Non Wealthy"` when only
non-wealthy-polarity keywords occur, and `None` both when the two polarities
occur simultaneously and when neither occurs.  Occurrence is substring
occurrence in the normalised question, as in the code. -/
theorem extract_zone_type_spec :
    ∀ q : String,
      (wealthy_mentioned q → non_wealthy_mentioned q → extract_zone_type q = none) ∧
      (wealthy_mentioned q → ¬ non_wealthy_mentioned q →
        extract_zone_type q = some "Wealthy") ∧
      (¬ wealthy_mentioned q → non_wealthy_mentioned q →
        extract_zone_type q = some "Non Wealthy") ∧
      (¬ wealthy_mentioned q → ¬ non_wealthy_mentioned q →
        extract_zone_type q = none) := by
  intro q
  refine ⟨?_, ?_, ?_, ?_⟩ <;> intro h1 h2 <;> unfold extract_zone_type <;> dsimp only
  · have ha := (wealthy_any_iff q).mpr h1
    have hb := (non_wealthy_any_iff q).mpr h2
    simp [ha, hb]
  · have ha := (wealthy_any_iff q).mpr h1
    have hb : (["non wealthy", "non-wealthy", "no rica", "popular"].any
        (fun w => inStr w (normalize q))) = false :=
      Bool.eq_false_iff.mpr (fun hx => h2 ((non_wealthy_any_iff q).mp hx))
    simp [ha, hb]
  · have ha : (["wealthy", "rica", "altas rentas"].any
        (fun w => inStr w (normalize q))) = false :=
      Bool.eq_false_iff.mpr (fun hx => h1 ((wealthy_any_iff q).mp hx))
    have hb := (non_wealthy_any_iff q).mpr h2
    simp [ha, hb]
  · have ha : (["wealthy", "rica", "altas rentas"].any
        (fun w => inStr w (normalize q))) = false :=
      Bool.eq_false_iff.mpr (fun hx => h1 ((wealthy_any_iff q).mp hx))
    have hb : (["non wealthy", "non-wealthy", "no rica", "popular"].any
        (fun w => inStr w (normalize q))) = false :=
      Bool.eq_false_iff.mpr (fun hx => h2 ((non_wealthy_any_iff q).mp hx))
    simp [ha, hb]

/-- Witness for C5 at concrete questions of each polarity combination. -/
theorem extract_zone_type_spec_witness :
    extract_zone_type "zonas wealthy y zonas popular" = none ∧
    extract_zone_type "top zonas wealthy" = some "Wealthy" ∧
    extract_zone_type "zonas popular" = some "Non Wealthy" ∧
    extract_zone_type "top 5 zonas" = none :=
  ⟨(extract_zone_type_spec _).1 (by decide) (by decide),
   (extract_zone_type_spec _).2.1 (by decide) (by decide),
   (extract_zone_type_spec _).2.2.1 (by decide) (by decide),
   (extract_zone_type_spec _).2.2.2 (by decide) (by decide)⟩

/-! ## `executor.execute` (src/bot/executor.py:110-423)

The DuckDB connection is external: a query oracle `Db` maps the generated SQL
text to result rows (a row is the association list a `.to_dicts()` entry
yields, values kept as opaque strings).  Result payloads are the Python dicts
in construction order.  Presentation float formatting aside, the SQL text is
assembled exactly as the source's f-strings do, with whitespace simplified. -/

/-- A result row (one dict of `df.to_dicts()`). -/
abbrev Rec := List (String × String)

/-- The external analytical store: SQL text in, rows out. -/
abbrev Db := String → List Rec

/-- A Python dict value in a result payload. -/
inductive PVal where
  | str : String → PVal
  | ostr : Option String → PVal
  | rows : List Rec → PVal
  | strs : List String → PVal
  deriving DecidableEq

/-- A result payload: the `out` dict in construction order. -/
abbrev Payload := List (String × PVal)

/-- `row[key]` with the lookup used by the inference branch. -/
def recGet (r : Rec) (k : String) : String := (lookupAssoc r k).getD ""

/-- The SQL single-quote character. -/
def sq : String := "\x27"

/-- A quoted SQL string list `'a','b',...`. -/
def sqlStrList (xs : List String) : String :=
  String.intercalate "," (xs.map (fun x => sq ++ x ++ sq))

/-- The zone-type comparison value of `_filters_where`:
`f["zone_type"].upper().replace("-", " ").strip()`. -/
def zone_type_cmp (z : String) : String :=
  stripStr ⟨(upperStr z).data.map (fun c => if c = '-' then ' ' else c)⟩

/-- `executor._filters_where` (src/bot/executor.py:52-67): conjunction of the
truthy geography filters, case-insensitive, zone_type separator-robust. -/
def _filters_where (f : Filters) : String :=
  (if truthyStr f.country then
    " AND UPPER(COUNTRY)=UPPER(" ++ sq ++ f.country.getD "" ++ sq ++ ")"
  else "") ++
  (if truthyStr f.city then
    " AND UPPER(CITY)=UPPER(" ++ sq ++ f.city.getD "" ++ sq ++ ")"
  else "") ++
  (if truthyStr f.zone then
    " AND UPPER(ZONE)=UPPER(" ++ sq ++ f.zone.getD "" ++ sq ++ ")"
  else "") ++
  (if truthyStr f.zone_type then
    " AND REPLACE(UPPER(ZONE_TYPE)," ++ sq ++ "-" ++ sq ++ "," ++ sq ++ " " ++ sq ++
      ") = " ++ sq ++ zone_type_cmp (f.zone_type.getD "") ++ sq
  else "")

/-- `executor._metric_where` (src/bot/executor.py:70-73). -/
def _metric_where (metrics : List String) : String :=
  "AND LOWER(METRIC) IN (" ++
    String.intercalate ", " (metrics.map (fun m => "LOWER(" ++ sq ++ m ++ sq ++ ")")) ++
    ")"

def _ALLOWED_DIMS : List (String × String) :=
  [("country", "COUNTRY"), ("city", "CITY"), ("zone", "ZONE"),
   ("zone_type", "ZONE_TYPE"), ("zone_prioritization", "ZONE_PRIORITIZATION")]

/-- `executor._safe_dim` (src/bot/executor.py:85-94). -/
def _safe_dim (group_by : Option (List String)) (dflt : String) : String :=
  let fallbackDim := (lookupAssoc _ALLOWED_DIMS dflt).getD "ZONE_TYPE"
  match group_by with
  | some (g0 :: _) =>
    (lookupAssoc _ALLOWED_DIMS (lowerStr (stripStr g0))).getD fallbackDim
  | _ => fallbackDim

/-- `executor._safe_group_cols` (src/bot/executor.py:97-104). -/
def _safe_group_cols (group_by : Option (List String)) (fallback : List String) :
    List String :=
  match group_by with
  | none => fallback.map upperStr
  | some [] => fallback.map upperStr
  | some l =>
    l.map (fun g =>
      let key := lowerStr (stripStr g)
      (lookupAssoc _ALLOWED_DIMS key).getD (upperStr key))

/-- `re.fullmatch(r"L(\d+)W-L0W", ·)`, shared by `_pretty_range`. -/
def matchLastWeeksTok (r : Str) : Option Nat :=
  match matchLnW r with
  | some (n, rest) => if rest = ['-', 'L', '0', 'W'] then some n else none
  | none => none

/-- `executor._pretty_range` (src/bot/executor.py:42-49). -/
def _pretty_range (r : Option String) : String :=
  let r' := upperStr (stripStr (r.getD ""))
  if r' = "L0W" then "Week 0 (actual)"
  else
    match matchLastWeeksTok r'.data with
    | some n => "Últimas " ++ toString n ++ " semanas"
    | none => if r' = "" then "L0W" else r'

/-- The `LIMIT` fragment `f"LIMIT {spec.ops.top_k}" if spec.ops.top_k else ""`
(src/bot/executor.py:146 and 173): `None` and `0` are both falsy, so neither
emits a clause. -/
def limit_clause (top_k : Option Int) : String :=
  match top_k with
  | some k => if k ≠ 0 then "LIMIT " ++ toString k else ""
  | none => ""

/-- `spec.ops.top_k or ''` in the filter-branch titles. -/
def top_k_or_empty (top_k : Option Int) : String :=
  match top_k with
  | some k => if k ≠ 0 then toString k else ""
  | none => ""

/-- `spec.ops.top_k or 10` in the inference branch
(src/bot/executor.py:335). -/
def top_k_or_ten (top_k : Option Int) : Int :=
  match top_k with
  | some k => if k ≠ 0 then k else 10
  | none => 10

/-- `"DESC" if (spec.ops.order or 'desc').lower() != "asc" else "ASC"`. -/
def order_dir (order : Option String) : String :=
  let o := if truthyStr order then order.getD "" else "desc"
  if lowerStr o ≠ "asc" then "DESC" else "ASC"

/-- `str.capitalize()`. -/
def capitalizeStr (s : String) : String :=
  match s.data with
  | [] => s
  | c :: r => ⟨upperChar c :: r.map lowerChar⟩

/-- The shared `WHERE` of `execute` (src/bot/executor.py:123-132). -/
def where_clause (spec : AnalyticsSpec) (lo hi : Nat) : String :=
  "WHERE 1=1 " ++ _filters_where spec.filters ++ " " ++
    _metric_where (metrics_for_where spec) ++ " AND VALUE IS NOT NULL" ++
    " AND WEEK_OFFSET BETWEEN " ++ toString lo ++ " AND " ++ toString hi

/-- The `out` dict of a successful branch in construction/update order:
`visualization` and `suggestions` at connect time, `debug_sql` when the debug
flag is on, `title`/`data` from `out.update(...)`. -/
def mkOut (viz : Option String) (dbg : Option String) (title : String)
    (data : List Rec) (suggestions : List String) : Payload :=
  [("visualization", PVal.ostr viz), ("suggestions", PVal.strs suggestions)] ++
    (match dbg with | some s => [("debug_sql", PVal.str s)] | none => []) ++
    [("title", PVal.str title), ("data", PVal.rows data)]

/-- The per-zone correlation query of the inference branch
(src/bot/executor.py:345-368). -/
def inference_corr_sql (lo_o hi_o : Nat) (r : Rec) : String :=
  "WITH m AS (SELECT WEEK_OFFSET, METRIC, VALUE FROM zone_weekly_metrics" ++
  " WHERE UPPER(COUNTRY)=UPPER(" ++ sq ++ recGet r "COUNTRY" ++ sq ++ ")" ++
  " AND UPPER(CITY)=UPPER(" ++ sq ++ recGet r "CITY" ++ sq ++ ")" ++
  " AND UPPER(ZONE)=UPPER(" ++ sq ++ recGet r "ZONE" ++ sq ++ ")" ++
  " AND WEEK_OFFSET BETWEEN " ++ toString lo_o ++ " AND " ++ toString hi_o ++
  " AND VALUE IS NOT NULL" ++
  " AND METRIC IN (" ++
    sqlStrList ["Lead Penetration", "Perfect Orders", "Gross Profit UE"] ++ "))" ++
  " ,wide AS (SELECT WEEK_OFFSET," ++
  " MAX(CASE WHEN METRIC=" ++ sq ++ "Lead Penetration" ++ sq ++
    " THEN VALUE END) AS LP," ++
  " MAX(CASE WHEN METRIC=" ++ sq ++ "Perfect Orders" ++ sq ++
    " THEN VALUE END) AS PO," ++
  " MAX(CASE WHEN METRIC=" ++ sq ++ "Gross Profit UE" ++ sq ++
    " THEN VALUE END) AS GP" ++
  " FROM m GROUP BY WEEK_OFFSET)" ++
  " SELECT corr(LP, PO) AS corr_lp_po, corr(LP, GP) AS corr_lp_gp," ++
  " corr(PO, GP) AS corr_po_gp FROM wide"

/-- `executor.execute` (src/bot/executor.py:110-423): dispatch on the task
name; each branch assembles its query text, runs it through the store, and
returns the payload dict; an unrecognised task falls through to the bare
`{"error": ...}` dict.  The per-row correlation merge `{**r, **corr}` is the
list append (the key sets are disjoint), and `.to_dicts()[0]` of the one-row
aggregate correlation query is `headD []`. -/
def execute (db : Db) (env_dev : Bool) (spec : AnalyticsSpec) : Payload :=
  let dbg := spec.ops.explain || env_dev
  let lohi := _offset_bounds spec.time.range
  let lo := lohi.1
  let hi := lohi.2
  let whereStr := where_clause spec lo hi
  let time_label := _pretty_range spec.time.range
  let metric0 := spec.metrics.headD ""
  if spec.task = "filter" then
    if lo = 0 ∧ hi = 0 then
      let sql := "SELECT COUNTRY, CITY, ZONE, ZONE_TYPE, METRIC, VALUE" ++
        " FROM zone_weekly_metrics " ++ whereStr ++
        " ORDER BY VALUE " ++ order_dir spec.ops.order ++ " " ++
        limit_clause spec.ops.top_k
      mkOut spec.visualization (if dbg then some sql else none)
        ("Top " ++ top_k_or_empty spec.ops.top_k ++ " zonas — " ++ metric0 ++
          " (" ++ time_label ++ ")")
        (db sql)
        ["¿Ver tendencia 8 semanas?", "¿Comparar con semana pasada?",
         "¿Exportar a CSV?"]
    else
      let sql := "WITH base AS (SELECT COUNTRY, CITY, ZONE, ZONE_TYPE, METRIC, VALUE" ++
        " FROM zone_weekly_metrics " ++ whereStr ++ ")," ++
        " agg AS (SELECT COUNTRY, CITY, ZONE, ZONE_TYPE, METRIC," ++
        " AVG(VALUE) AS value FROM base" ++
        " GROUP BY COUNTRY, CITY, ZONE, ZONE_TYPE, METRIC)" ++
        " SELECT COUNTRY, CITY, ZONE, ZONE_TYPE, METRIC, value FROM agg" ++
        " ORDER BY value " ++ order_dir spec.ops.order ++ " " ++
        limit_clause spec.ops.top_k
      mkOut spec.visualization (if dbg then some sql else none)
        ("Top " ++ top_k_or_empty spec.ops.top_k ++ " zonas — " ++ metric0 ++
          " (" ++ time_label ++ ", promedio ventana)")
        (db sql)
        ["¿Ver semana a semana?", "¿Cambiar a mediana?", "¿Exportar a CSV?"]
  else if spec.task = "compare" then
    let dim_col := _safe_dim spec.group_by "zone_type"
    let sql := "WITH base AS (SELECT " ++ dim_col ++ " AS grp, VALUE" ++
      " FROM zone_weekly_metrics " ++ whereStr ++ ")" ++
      " SELECT grp, AVG(VALUE) AS value, COUNT(*) AS n_rows FROM base" ++
      " GROUP BY grp ORDER BY value DESC"
    let dim_name := match spec.group_by with
      | some (g :: _) => g
      | _ => "ZONE_TYPE"
    mkOut spec.visualization (if dbg then some sql else none)
      ("Comparación " ++ metric0 ++ " por " ++ upperStr dim_name ++
        " (" ++ time_label ++ ")")
      (db sql)
      ["¿Desglosar por city?", "¿Ver distribución por segmento?"]
  else if spec.task = "trend" then
    let sql := "WITH base AS (SELECT WEEK_OFFSET, VALUE FROM zone_weekly_metrics " ++
      whereStr ++ ")" ++
      " SELECT WEEK_OFFSET AS week, AVG(VALUE) AS value FROM base" ++
      " GROUP BY WEEK_OFFSET ORDER BY week"
    mkOut spec.visualization (if dbg then some sql else none)
      ("Evolución " ++ metric0 ++ " (" ++ time_label ++ ")")
      (db sql)
      ["¿Calcular pendiente y R²?", "¿Resaltar 3 caídas/altas consecutivas?"]
  else if spec.task = "aggregate" then
    let group := _safe_group_cols spec.group_by ["country"]
    let g := String.intercalate ", " group
    let agg := lowerStr (if truthyStr spec.ops.agg then spec.ops.agg.getD "" else "mean")
    let agg_sql := if agg = "mean" then "AVG" else upperStr agg
    let sql := "WITH base AS (SELECT " ++ g ++ ", VALUE FROM zone_weekly_metrics " ++
      whereStr ++ ")" ++
      " SELECT " ++ g ++ " AS grp, " ++ agg_sql ++ "(VALUE) AS value FROM base" ++
      " GROUP BY " ++ g ++ " ORDER BY value DESC"
    let gb_list := match spec.group_by with
      | some l => if l ≠ [] then l else ["country"]
      | none => ["country"]
    mkOut spec.visualization (if dbg then some sql else none)
      (capitalizeStr agg ++ " de " ++ metric0 ++ " por " ++
        String.intercalate ", " gb_list ++ " (" ++ time_label ++ ")")
      (db sql)
      ["¿Ver evolución por país 8 semanas?", "¿Top/bottom 5 países?"]
  else if spec.task = "multivariable" then
    let sql := "WITH base AS (SELECT COUNTRY, CITY, ZONE, WEEK_OFFSET, METRIC, VALUE" ++
      " FROM zone_weekly_metrics " ++ whereStr ++
      " AND METRIC IN (" ++ sqlStrList ["Lead Penetration", "Perfect Orders"] ++ "))," ++
      " wide AS (SELECT COUNTRY, CITY, ZONE," ++
      " AVG(CASE WHEN METRIC=" ++ sq ++ "Lead Penetration" ++ sq ++
        " THEN VALUE END) AS LP," ++
      " AVG(CASE WHEN METRIC=" ++ sq ++ "Perfect Orders" ++ sq ++
        " THEN VALUE END) AS PO" ++
      " FROM base GROUP BY COUNTRY, CITY, ZONE)," ++
      " stats AS (SELECT COUNTRY," ++
      " quantile_cont(LP, 0.70) OVER (PARTITION BY COUNTRY) AS p70_lp," ++
      " quantile_cont(PO, 0.30) OVER (PARTITION BY COUNTRY) AS p30_po," ++
      " COUNTRY AS c FROM wide)" ++
      " SELECT w.COUNTRY, w.CITY, w.ZONE, w.LP, w.PO FROM wide w" ++
      " JOIN stats s ON w.COUNTRY = s.c" ++
      " WHERE w.LP IS NOT NULL AND w.PO IS NOT NULL" ++
      " AND w.LP >= s.p70_lp AND w.PO <= s.p30_po" ++
      " ORDER BY w.LP DESC, w.PO ASC"
    mkOut spec.visualization (if dbg then some sql else none)
      ("Zonas con ALTO LP y BAJO PO (" ++ time_label ++ ")")
      (db sql)
      ["¿Ver peer group?", "¿Tendencia 8 semanas?"]
  else if spec.task = "inference" then
    let range_o := if truthyStr spec.time.range then spec.time.range else some "L5W-L0W"
    let lohi_o := _offset_bounds range_o
    let lo_o := lohi_o.1
    let hi_o := lohi_o.2
    let sql_slope := "WITH base AS (SELECT COUNTRY, CITY, ZONE, WEEK_OFFSET, ORDERS" ++
      " FROM zone_weekly_orders WHERE 1=1 " ++ _filters_where spec.filters ++
      " AND WEEK_OFFSET BETWEEN " ++ toString lo_o ++ " AND " ++ toString hi_o ++ ")," ++
      " with_x AS (SELECT COUNTRY, CITY, ZONE, WEEK_OFFSET, ORDERS," ++
      " ROW_NUMBER() OVER (PARTITION BY COUNTRY, CITY, ZONE ORDER BY WEEK_OFFSET)" ++
      " - 1 AS x FROM base)," ++
      " stats AS (SELECT COUNTRY, CITY, ZONE," ++
      " covar_samp(ORDERS, x) / NULLIF(var_samp(x), 0) AS slope" ++
      " FROM with_x GROUP BY COUNTRY, CITY, ZONE)" ++
      " SELECT * FROM stats ORDER BY slope DESC" ++
      " LIMIT " ++ toString (top_k_or_ten spec.ops.top_k)
    let top_rows := db sql_slope
    let out_rows := top_rows.map (fun r =>
      r ++ (db (inference_corr_sql lo_o hi_o r)).headD [])
    mkOut spec.visualization (if dbg then some sql_slope else none)
      ("Zonas que más crecen en Órdenes (" ++ time_label ++ ") + correlaciones")
      out_rows
      ["¿Drivers por peer group?", "¿Playbook por zona?"]
  else if spec.task = "contextual" then
    let metricsIn := " AND METRIC IN (" ++
      sqlStrList ["Lead Penetration", "Perfect Orders", "Gross Profit UE"] ++ ")" ++
      " AND VALUE IS NOT NULL"
    let sql := "WITH cur AS (SELECT COUNTRY, CITY, ZONE, METRIC, VALUE" ++
      " FROM zone_weekly_metrics " ++ _filters_where spec.filters ++ metricsIn ++
      " AND WEEK_OFFSET = 0)," ++
      " prev AS (SELECT COUNTRY, CITY, ZONE, METRIC, VALUE AS prev_value" ++
      " FROM zone_weekly_metrics " ++ _filters_where spec.filters ++ metricsIn ++
      " AND WEEK_OFFSET = 1)," ++
      " joined AS (SELECT c.COUNTRY, c.CITY, c.ZONE, c.METRIC, c.VALUE," ++
      " p.prev_value, CASE WHEN p.prev_value IS NULL OR p.prev_value=0 THEN NULL" ++
      " ELSE (c.VALUE - p.prev_value)/p.prev_value END AS pct_change" ++
      " FROM cur c LEFT JOIN prev p USING (COUNTRY, CITY, ZONE, METRIC))" ++
      " SELECT * FROM joined" ++
      " WHERE (METRIC=" ++ sq ++ "Perfect Orders" ++ sq ++ " AND VALUE < 0.85)" ++
      " OR (pct_change IS NOT NULL AND pct_change < -0.1)" ++
      " ORDER BY METRIC, VALUE ASC"
    mkOut spec.visualization (if dbg then some sql else none)
      "Zonas problemáticas (PO bajo o caída >10% WoW)"
      (db sql)
      ["¿Priorizar por país/ciudad?", "¿Recomendaciones por tipo de problema?"]
  else
    [("error", PVal.str ("Tarea no implementada: " ++ spec.task))]

/-! ### C8 — unimplemented task -/

/-- The seven task names `execute` dispatches on. -/
def handled_tasks : List String :=
  ["filter", "compare", "trend", "aggregate", "multivariable", "inference",
   "contextual"]

/-- A payload shaped like a success payload, as the claim lists the keys. -/
def hasSuccessShape (p : Payload) : Prop :=
  "title" ∈ p.map Prod.fst ∧ "data" ∈ p.map Prod.fst ∧
    "visualization" ∈ p.map Prod.fst ∧ "suggestions" ∈ p.map Prod.fst

instance (p : Payload) : Decidable (hasSuccessShape p) := by
  unfold hasSuccessShape; infer_instance

/-- C8 counterexample (src/bot/executor.py:421-422): on a task name outside
the seven handled ones, `execute` returns the bare `{"error": ...}` dict,
which does *not* carry the success keys `title`/`data`/`visualization`/
`suggestions` — the claimed shape uniformity fails. -/
theorem unimplemented_task_counterexample :
    execute (fun _ => []) false { task := "pct_change", metrics := ["Orders"] } =
      [("error", PVal.str "Tarea no implementada: pct_change")] ∧
    ¬ hasSuccessShape
        (execute (fun _ => []) false { task := "pct_change", metrics := ["Orders"] }) := by
  constructor
  · decide
  · decide

/-- C8 (amended; src/bot/executor.py:110-112 and 421-422): for every spec
whose task is not one of the seven handled names, `execute` returns the
structured one-key error dict `{"error": "Tarea no implementada: <task>"}`
without raising — a payload that does not share the success shape. -/
theorem unimplemented_task_spec :
    ∀ (db : Db) (env : Bool) (spec : AnalyticsSpec),
      spec.task ∉ handled_tasks →
      execute db env spec =
        [("error", PVal.str ("Tarea no implementada: " ++ spec.task))] := by
  intro db env spec h
  have h1 : ¬ spec.task = "filter" := fun hx => h (by rw [hx]; decide)
  have h2 : ¬ spec.task = "compare" := fun hx => h (by rw [hx]; decide)
  have h3 : ¬ spec.task = "trend" := fun hx => h (by rw [hx]; decide)
  have h4 : ¬ spec.task = "aggregate" := fun hx => h (by rw [hx]; decide)
  have h5 : ¬ spec.task = "multivariable" := fun hx => h (by rw [hx]; decide)
  have h6 : ¬ spec.task = "inference" := fun hx => h (by rw [hx]; decide)
  have h7 : ¬ spec.task = "contextual" := fun hx => h (by rw [hx]; decide)
  unfold execute
  dsimp only
  rw [if_neg h1, if_neg h2, if_neg h3, if_neg h4, if_neg h5, if_neg h6, if_neg h7]

/-- Witness for C8 (amended) at a concrete unhandled task name. -/
theorem unimplemented_task_spec_witness :
    execute (fun _ => []) false { task := "forecast", metrics := [] } =
      [("error", PVal.str "Tarea no implementada: forecast")] :=
  unimplemented_task_spec (fun _ => []) false { task := "forecast", metrics := [] }
    (by decide)

/-! ### C10 — `top_k = 0` never limits -/

theorem limit_clause_zero : limit_clause (some 0) = limit_clause none := rfl

/-- `execute` touches `ops.top_k` only through `limit_clause`,
`top_k_or_empty` and `top_k_or_ten`: specs agreeing on those agree on the
whole payload. -/
theorem execute_top_k_congr (db : Db) (env : Bool) (s : AnalyticsSpec)
    (t1 t2 : Option Int)
    (hl : limit_clause t1 = limit_clause t2)
    (he : top_k_or_empty t1 = top_k_or_empty t2)
    (ht : top_k_or_ten t1 = top_k_or_ten t2) :
    execute db env { s with ops := { s.ops with top_k := t1 } } =
      execute db env { s with ops := { s.ops with top_k := t2 } } := by
  unfold execute where_clause metrics_for_where
  dsimp only
  rw [hl, he, ht]

theorem top_k_or_empty_zero : top_k_or_empty (some 0) = top_k_or_empty none := rfl

theorem top_k_or_ten_zero : top_k_or_ten (some 0) = top_k_or_ten (some 10) := rfl

/-- On an inference-task spec, `ops.top_k` is consulted only through
`top_k_or_ten`, so `0` and `10` produce the identical query and payload. -/
theorem execute_inference_top_k (db : Db) (env : Bool) (s : AnalyticsSpec)
    (htask : s.task = "inference") :
    execute db env { s with ops := { s.ops with top_k := some 0 } } =
      execute db env { s with ops := { s.ops with top_k := some 10 } } := by
  unfold execute where_clause metrics_for_where
  dsimp only
  rw [htask]
  simp only [String.reduceEq, reduceIte]
  rw [top_k_or_ten_zero]

/-- C10 (src/bot/executor.py:141-182 and 311-336): a `top_k` of `0` is never
applied as a row limit.  The emitted `LIMIT` fragment for `top_k = 0` is
empty, so a filter-task spec returns exactly what it returns with `top_k`
absent (both the single-week and the windowed-average branches run the
identical query and payload); and an inference-task spec with `top_k = 0`
behaves exactly as with the default limit of 10. -/
theorem top_k_zero_spec :
    limit_clause (some 0) = "" ∧
    (∀ (db : Db) (env : Bool) (spec : AnalyticsSpec), spec.task = "filter" →
      execute db env { spec with ops := { spec.ops with top_k := some 0 } } =
        execute db env { spec with ops := { spec.ops with top_k := none } }) ∧
    (∀ (db : Db) (env : Bool) (spec : AnalyticsSpec), spec.task = "inference" →
      execute db env { spec with ops := { spec.ops with top_k := some 0 } } =
        execute db env { spec with ops := { spec.ops with top_k := some 10 } }) := by
  refine ⟨rfl, ?_, ?_⟩
  · intro db env spec _
    exact execute_top_k_congr db env spec (some 0) none rfl rfl rfl
  · intro db env spec htask
    exact execute_inference_top_k db env spec htask

/-- Witness for C10 at a concrete filter spec and a concrete inference spec
over the empty store. -/
theorem top_k_zero_spec_witness :
    (execute (fun _ => []) false
        { task := "filter", metrics := ["Orders"],
          ops := { top_k := some 0 } } =
      execute (fun _ => []) false
        { task := "filter", metrics := ["Orders"],
          ops := { top_k := none } }) ∧
    (execute (fun _ => []) false
        { task := "inference", metrics := ["Orders"],
          ops := { top_k := some 0 } } =
      execute (fun _ => []) false
        { task := "inference", metrics := ["Orders"],
          ops := { top_k := some 10 } }) := by
  constructor
  · exact top_k_zero_spec.2.1 (fun _ => []) false
      { task := "filter", metrics := ["Orders"], ops := { top_k := some 27 } } rfl
  · exact top_k_zero_spec.2.2 (fun _ => []) false
      { task := "inference", metrics := ["Orders"], ops := { top_k := some 27 } } rfl

/-! ## `engine.detect_benchmarking` (src/insights/engine.py:141-181)

The warehouse snapshot is a list of `zone_weekly_metrics` rows; values are
real numbers (`none` models SQL NULL / pandas NaN, which every pandas
statistic skips and every comparison fails).  The `has_zone_type` runtime
probe is the `flag` parameter.  Presentation strings (`title`, `summary`) are
elided; the geo/metric/severity/z payload of each `Insight` is kept.

The function groups with `df.groupby([tuple(group_cols), "METRIC"])`
(line 159): to pandas the nested tuple is a single column label, it matches no
column of the flat query result, and the groupby raises `KeyError` before the
loop body ever runs.  The grouping and the loop body the code was written to
use are embedded below as `benchGroups` / `benchGroupInsights`, and
`detect_benchmarking` models the error raised before they are reached. -/

structure MRow where
  country : String
  zone_type : String
  zone : String
  metric : String
  week_offset : Nat
  value : Option ℝ

/-- A benchmark `Insight` (the fields `detect_benchmarking` populates). -/
structure BInsight where
  category : String
  country : String
  city : Option String
  zone : String
  metric : String
  severity : ℝ
  z : ℝ
  peer_group : String

/-- `engine._severity_from_z`: `min(1.0, abs(z) / 3.0)`. -/
noncomputable def _severity_from_z (z : ℝ) : ℝ := min 1 (|z| / 3)

/-- pandas `Series.mean()` over the non-null values. -/
noncomputable def listMean (l : List ℝ) : ℝ := l.sum / l.length

/-- pandas `Series.var(ddof=0)` (population variance). -/
noncomputable def pvariance (l : List ℝ) : ℝ :=
  ((l.map (fun v => (v - listMean l) ^ 2)).sum) / l.length

/-- pandas `Series.std(ddof=0)` (population standard deviation). -/
noncomputable def pstd (l : List ℝ) : ℝ := Real.sqrt (pvariance l)

/-- The peer-group key: `(COUNTRY[, ZONE_TYPE], METRIC)` depending on the
`has_zone_type` probe. -/
def benchKey (flag : Bool) (r : MRow) : String × Option String × String :=
  (r.country, if flag then some r.zone_type else none, r.metric)

/-- The composite grouping of the `WEEK_OFFSET=0` rows by peer-group key that
the loop header `for (grp_vals, metric), g in ...` was written to unpack.  The
actual `groupby` call never constructs it (see `detect_benchmarking`). -/
def benchGroups (flag : Bool) (rows : List MRow) :
    List ((String × Option String × String) × List MRow) :=
  let r0 := rows.filter (fun r => r.week_offset == 0)
  ((r0.map (benchKey flag)).dedup).map
    (fun k => (k, r0.filter (fun r => benchKey flag r == k)))

/-- The loop body of `detect_benchmarking` for one peer group
(src/insights/engine.py:160-180), dead code in the program because the
`groupby` above it raises: skip on zero population standard deviation,
else z-score every row against `mean` and `std + 1e-9` and keep the rows with
`|z| ≥ 1.5` (`BENCHMARK_Z_ABS`); a NULL value z-scores to NaN and is never
kept. -/
noncomputable def benchGroupInsights (flag : Bool)
    (kg : (String × Option String × String) × List MRow) : List BInsight :=
  let values := kg.2.filterMap (fun r => r.value)
  if pstd values = 0 then []
  else
    let mean := listMean values
    let std := pstd values + 1e-9
    (kg.2.filter (fun r =>
        match r.value with
        | some v => decide (1.5 ≤ |(v - mean) / std|)
        | none => false)).map (fun r =>
      { category := "benchmark", country := r.country, city := none,
        zone := r.zone, metric := r.metric,
        severity := _severity_from_z ((r.value.getD 0 - mean) / std),
        z := (r.value.getD 0 - mean) / std,
        peer_group := if flag then "country+zone_type" else "country" })

/-- Stable-descending insertion by severity, modelling
`sorted(out, key=severity, reverse=True)`. -/
noncomputable def insertBySev (x : BInsight) : List BInsight → List BInsight
  | [] => [x]
  | y :: ys => if y.severity < x.severity then x :: y :: ys else y :: insertBySev x ys

noncomputable def sortBySevDesc : List BInsight → List BInsight
  | [] => []
  | x :: xs => insertBySev x (sortBySevDesc xs)

/-- `insights.config.TOP_N`. -/
def TOP_N : Nat := 10

/-- A pandas groupby key as `detect_benchmarking` passes it: either a plain
column name, or the nested `tuple(group_cols)` from engine.py:159.  pandas
treats a tuple inside a groupby by-list as a single (hierarchical) column
label, never as a list of columns. -/
inductive ColLabel where
  | str : String → ColLabel
  | tup : List String → ColLabel
deriving DecidableEq

/-- Whether a groupby key resolves against the flat string columns of the
query result (`COUNTRY[, ZONE_TYPE], ZONE, METRIC, VALUE`); a tuple label
matches none of them, so pandas raises `KeyError` for it. -/
def resolvesIn (columns : List String) : ColLabel → Bool
  | ColLabel.str s => columns.contains s
  | ColLabel.tup _ => false

/-- `engine.detect_benchmarking`: the `df.groupby([tuple(group_cols),
"METRIC"])` call on line 159 passes the nested tuple as one column label; it
resolves against no column of the flat dataframe, so pandas raises
`KeyError(tuple(group_cols))` at groupby construction and the function always
propagates that error — the z-scoring loop after the call never runs.  The
`.ok` branch records what the function as written would return were the
grouping constructed (per-group insights, sorted by severity descending,
truncated to `TOP_N * 2`). -/
noncomputable def detect_benchmarking (flag : Bool) (rows : List MRow) :
    Except ColLabel (List BInsight) :=
  let group_cols := if flag then ["COUNTRY", "ZONE_TYPE"] else ["COUNTRY"]
  let columns := group_cols ++ ["ZONE", "METRIC", "VALUE"]
  let by_keys : List ColLabel := [ColLabel.tup group_cols, ColLabel.str "METRIC"]
  match by_keys.find? (fun k => !(resolvesIn columns k)) with
  | some missing => Except.error missing
  | none =>
    Except.ok
      ((sortBySevDesc
        ((benchGroups flag rows).bind (benchGroupInsights flag))).take
        (TOP_N * 2))

/-- `generate_insights` calls every detector through `_safe`
(src/insights/engine.py), which turns a raised exception into an empty list:
the benchmark category of the insight report is therefore always empty. -/
noncomputable def safe_benchmarking (flag : Bool) (rows : List MRow) :
    List BInsight :=
  match detect_benchmarking flag rows with
  | Except.ok l => l
  | Except.error _ => []

theorem mem_insertBySev {x a : BInsight} {l : List BInsight} :
    a ∈ insertBySev x l ↔ a ∈ x :: l := by
  induction l with
  | nil => simp [insertBySev]
  | cons y ys ih =>
    unfold insertBySev
    split
    · simp
    · simp only [List.mem_cons, ih]
      tauto

theorem mem_sortBySevDesc {a : BInsight} {l : List BInsight} :
    a ∈ sortBySevDesc l ↔ a ∈ l := by
  induction l with
  | nil => simp [sortBySevDesc]
  | cons x xs ih =>
    unfold sortBySevDesc
    rw [mem_insertBySev]
    simp [ih]

/-- Had the grouping been constructed, the loop body would emit an insight
only with `|z| ≥ 1.5` and only from a group of non-zero population standard
deviation — the logic the loop was written for. -/
theorem benchGroupInsights_abs_z (flag : Bool)
    (kg : (String × Option String × String) × List MRow) (i : BInsight)
    (hmem : i ∈ benchGroupInsights flag kg) :
    1.5 ≤ |i.z| ∧ pstd (kg.2.filterMap (fun r => r.value)) ≠ 0 := by
  unfold benchGroupInsights at hmem
  dsimp only at hmem
  split at hmem
  · simp at hmem
  · next hstd =>
    refine ⟨?_, hstd⟩
    rcases List.mem_map.mp hmem with ⟨r, hr, hmk⟩
    have hflag := (List.mem_filter.mp hr).2
    cases hv : r.value with
    | none => rw [hv] at hflag; simp at hflag
    | some v =>
      rw [hv] at hflag
      replace hflag := of_decide_eq_true hflag
      subst hmk
      dsimp only
      rw [hv]
      simpa using hflag

/-- A zero-std peer group would be skipped by the loop body, so its
division-by-zero branch is unreachable even in the dead code. -/
theorem benchGroupInsights_zero_std (flag : Bool)
    (kg : (String × Option String × String) × List MRow)
    (h : pstd (kg.2.filterMap (fun r => r.value)) = 0) :
    benchGroupInsights flag kg = [] := by
  unfold benchGroupInsights
  dsimp only
  rw [if_pos h]

/-- A concrete five-row peer group with values `0,0,0,0,10`: mean 2,
population variance 16, population standard deviation 4; only the `Z5` row
z-scores past the 1.5 threshold. -/
def rows5 : List MRow :=
  [⟨"CO", "Wealthy", "Z1", "Perfect Orders", 0, some 0⟩,
   ⟨"CO", "Wealthy", "Z2", "Perfect Orders", 0, some 0⟩,
   ⟨"CO", "Wealthy", "Z3", "Perfect Orders", 0, some 0⟩,
   ⟨"CO", "Wealthy", "Z4", "Perfect Orders", 0, some 0⟩,
   ⟨"CO", "Wealthy", "Z5", "Perfect Orders", 0, some 10⟩]

/-- The single insight the intended loop body yields on `rows5` — never
actually produced, since the detector errors before the loop. -/
noncomputable def insight5 : BInsight :=
  { category := "benchmark", country := "CO", city := none, zone := "Z5",
    metric := "Perfect Orders",
    severity := _severity_from_z ((10 - 2) / (4 + 1e-9)),
    z := (10 - 2) / (4 + 1e-9),
    peer_group := "country+zone_type" }

theorem pstd_rows5 : pstd [(0 : ℝ), 0, 0, 0, 10] = 4 := by
  have hmean : listMean [(0 : ℝ), 0, 0, 0, 10] = 2 := by
    unfold listMean
    norm_num
  have hvar : pvariance [(0 : ℝ), 0, 0, 0, 10] = 16 := by
    unfold pvariance
    rw [hmean]
    norm_num
  unfold pstd
  rw [hvar, show (16 : ℝ) = 4 ^ 2 by norm_num, Real.sqrt_sq (by norm_num : (0 : ℝ) ≤ 4)]

theorem abs_z_low : ¬ (1.5 ≤ |((0 : ℝ) - 2) / (4 + 1e-9)|) := by
  have hpos : (0 : ℝ) < 4 + 1e-9 := by norm_num
  have habs : |((0 : ℝ) - 2) / (4 + 1e-9)| = 2 / (4 + 1e-9) := by
    rw [abs_div, abs_of_pos hpos]
    norm_num
  rw [habs, not_le, div_lt_iff hpos]
  norm_num

theorem abs_z_high : 1.5 ≤ |((10 : ℝ) - 2) / (4 + 1e-9)| := by
  have hpos : (0 : ℝ) < 4 + 1e-9 := by norm_num
  have habs : |((10 : ℝ) - 2) / (4 + 1e-9)| = 8 / (4 + 1e-9) := by
    rw [abs_div, abs_of_pos hpos]
    norm_num
  rw [habs, le_div_iff hpos]
  norm_num

theorem bench_rows5 :
    benchGroupInsights true (("CO", some "Wealthy", "Perfect Orders"), rows5) =
      [insight5] := by
  unfold benchGroupInsights
  dsimp only
  have hfm : rows5.filterMap (fun r => r.value) = [(0 : ℝ), 0, 0, 0, 10] := rfl
  rw [hfm, if_neg (by rw [pstd_rows5]; norm_num)]
  have hmean : listMean [(0 : ℝ), 0, 0, 0, 10] = 2 := by
    unfold listMean
    norm_num
  simp only [hmean, pstd_rows5]
  have hd0 : decide (1.5 ≤ |((0 : ℝ) - 2) / (4 + 1e-9)|) = false :=
    decide_eq_false abs_z_low
  have hd10 : decide (1.5 ≤ |((10 : ℝ) - 2) / (4 + 1e-9)|) = true :=
    decide_eq_true abs_z_high
  show List.map _ (List.filter _ rows5) = _
  unfold rows5
  simp only [List.filter_cons, List.filter_nil, hd0, hd10, if_true, if_false,
    List.map_cons, List.map_nil]
  rfl

/-- C7 (code bug, src/insights/engine.py:159): the claim describes the
intended z-score logic, but `df.groupby([tuple(group_cols), "METRIC"])` passes
the nested tuple as a single column label; no column of the flat dataframe
matches it, pandas raises `KeyError` at groupby construction, so
`detect_benchmarking` always errors on the tuple key — for every snapshot and
either `has_zone_type` probe — and `_safe` degrades the benchmark category to
no insights.  The z-scoring loop is dead code: on the concrete snapshot
`rows5` (values `0,0,0,0,10`) the detector errors and `safe_benchmarking`
returns nothing, even though the intended loop body would emit exactly
`insight5`, whose z-score does clear the 1.5 threshold. -/
theorem benchmark_groupby_keyerror :
    (∀ (flag : Bool) (rows : List MRow),
      detect_benchmarking flag rows =
        Except.error
          (ColLabel.tup (if flag then ["COUNTRY", "ZONE_TYPE"] else ["COUNTRY"]))) ∧
    safe_benchmarking true rows5 = [] ∧
    benchGroupInsights true (("CO", some "Wealthy", "Perfect Orders"), rows5) =
      [insight5] ∧
    1.5 ≤ |insight5.z| := by
  refine ⟨fun flag rows => ?_, rfl, bench_rows5, abs_z_high⟩
  cases flag <;> rfl

end RappiOps
